import Mathlib

/-!
Verification development for the WLK weather-archive converter
(src/wtfToCsvConverter/WLKtoJSONConverter.py).

The Python module decodes fixed-layout binary weather records (daily summary,
two archive-interval variants, a live LOOP2 telemetry frame), maps per-field
sentinel values to "absent", applies per-field scale/enumeration transforms,
validates a table-driven CRC-16, packs/unpacks a custom 32-bit timestamp, and
derives secondary metrics (heat index, wind chill, rolling 10-minute wind
average, ...).

This file is a shallow embedding of those functions:
- Python `decimal.Decimal` arithmetic is embedded as exact rational (`ℚ`)
  arithmetic.  All Decimal additions/multiplications/divisions appearing in
  the embedded code paths are exact at the default 28-significant-digit
  context for the magnitudes involved; the two transcendental Decimal
  operations (`Decimal.sqrt` in one heat-index correction branch and
  `Decimal.__pow__` with exponent 0.16 in the wind-chill regression) are
  passed in as explicit function parameters, so every theorem quantifies over
  the implementation of those operations (bounds on the wind-chill power are
  justified by a separate real-analysis lemma about `10 ^ (16/100 : ℝ)`).
- Python unbounded `int` is embedded as `Int`/`Nat`.
- `struct.unpack_from` is embedded byte-exactly over `List Nat` buffers
  (little-endian, signed/unsigned 8/16-bit fields, pad bytes, byte strings);
  like the Python original it fails on a buffer shorter than the format size
  and ignores trailing bytes.
- A raised Python exception (struct.error for a short buffer, AssertionError
  for a failed verification constant, ValueError for an enum code out of
  range, KeyError for a missing dict key) is embedded as an `Except` error;
  the error names follow the specification's taxonomy (`lengthMismatch` for
  struct.error, `assertionFailed`, `valueError`, `keyError`).
-/

set_option maxRecDepth 100000

namespace WLK

/-! ### Sentinel constants (source lines 24-27) -/

def DASH_LARGE : Int := 32767
def DASH_LARGE_NEGATIVE : Int := -32768
def DASH_ZERO : Int := 0
def DASH_SMALL : Int := 255

/-! ### Timestamp codec (source lines 44-60)

`convert_timestamp_to_datetime` uses Python 3 true division followed by
`int(...)` truncation; for every value reachable below 2^53 the float quotient
truncates to the integer quotient, so it is embedded as `Nat` division. -/

structure DateTime5 where
  year : Nat
  month : Nat
  day : Nat
  hour : Nat
  minute : Nat
deriving DecidableEq, Repr

def convert_datetime_to_timestamp (d : DateTime5) : Nat :=
  ((d.day + d.month * 32 + (d.year - 2000) * 512) <<< 16) + (d.minute + d.hour * 100)

def convert_timestamp_to_datetime (timestamp : Nat) : DateTime5 :=
  let date_part := timestamp >>> 16
  let time_part := timestamp - (date_part <<< 16)
  let year := date_part / 512 + 2000
  let month := (date_part - (year - 2000) * 512) / 32
  let day := date_part - (year - 2000) * 512 - month * 32
  let hour := time_part / 100
  let minute := time_part - hour * 100
  ⟨year, month, day, hour, minute⟩

/-! ### Compass enumeration (source lines 72-119)

The source enum has 17 members: the 16 compass points with codes 0..15 plus
the repair member `NS = -1` that the repository author added so that the
sentinel byte 0xFF (which unpacks to -1 through a signed `b` field) maps to a
member instead of raising. -/

inductive WindDirection
  | NS | N | NNE | NE | ENE | E | ESE | SE | SSE | S | SSW | SW | WSW | W | WNW | NW | NNW
deriving DecidableEq, Repr

def WindDirection.value : WindDirection → Int
  | .NS => -1
  | .N => 0
  | .NNE => 1
  | .NE => 2
  | .ENE => 3
  | .E => 4
  | .ESE => 5
  | .SE => 6
  | .SSE => 7
  | .S => 8
  | .SSW => 9
  | .SW => 10
  | .WSW => 11
  | .W => 12
  | .WNW => 13
  | .NW => 14
  | .NNW => 15

/-- Embedding of `WindDirection.__init__`: `degrees = value * 22.5`, then
`if degrees == 0.0: degrees = 360.0`. -/
def WindDirection.degrees (w : WindDirection) : ℚ :=
  let d : ℚ := (w.value : ℚ) * (45/2)
  if d = 0 then 360 else d

/-- Embedding of the Python enum constructor `WindDirection(v)`: a member for
a known code, `none` (a raised ValueError in Python) otherwise. -/
def windDirOfValue : Int → Option WindDirection
  | -1 => some .NS
  | 0 => some .N
  | 1 => some .NNE
  | 2 => some .NE
  | 3 => some .ENE
  | 4 => some .E
  | 5 => some .ESE
  | 6 => some .SE
  | 7 => some .SSE
  | 8 => some .S
  | 9 => some .SSW
  | 10 => some .SW
  | 11 => some .WSW
  | 12 => some .W
  | 13 => some .WNW
  | 14 => some .NW
  | 15 => some .NNW
  | _ => none

/-- The explicit per-degree reverse lookup table `_WindDirection__FROM_DEGREE_MAP`
(source lines 102-119), in source order: 350-360 and 1-11 map to N, then 23-entry
sectors for the remaining 15 members. -/
def FROM_DEGREE_ROW_N : List (Int × WindDirection) := [
  (350, .N), (351, .N), (352, .N), (353, .N), (354, .N), (355, .N), (356, .N), (357, .N),
  (358, .N), (359, .N), (360, .N), (1, .N), (2, .N), (3, .N), (4, .N), (5, .N),
  (6, .N), (7, .N), (8, .N), (9, .N), (10, .N), (11, .N)]

def FROM_DEGREE_ROW_NNE : List (Int × WindDirection) := [
  (12, .NNE), (13, .NNE), (14, .NNE), (15, .NNE), (16, .NNE), (17, .NNE), (18, .NNE), (19, .NNE),
  (20, .NNE), (21, .NNE), (22, .NNE), (23, .NNE), (24, .NNE), (25, .NNE), (26, .NNE), (27, .NNE),
  (28, .NNE), (29, .NNE), (30, .NNE), (31, .NNE), (32, .NNE), (33, .NNE), (34, .NNE)]

def FROM_DEGREE_ROW_NE : List (Int × WindDirection) := [
  (35, .NE), (36, .NE), (37, .NE), (38, .NE), (39, .NE), (40, .NE), (41, .NE), (42, .NE),
  (43, .NE), (44, .NE), (45, .NE), (46, .NE), (47, .NE), (48, .NE), (49, .NE), (50, .NE),
  (51, .NE), (52, .NE), (53, .NE), (54, .NE), (55, .NE), (56, .NE)]

def FROM_DEGREE_ROW_ENE : List (Int × WindDirection) := [
  (57, .ENE), (58, .ENE), (59, .ENE), (60, .ENE), (61, .ENE), (62, .ENE), (63, .ENE), (64, .ENE),
  (65, .ENE), (66, .ENE), (67, .ENE), (68, .ENE), (69, .ENE), (70, .ENE), (71, .ENE), (72, .ENE),
  (73, .ENE), (74, .ENE), (75, .ENE), (76, .ENE), (77, .ENE), (78, .ENE), (79, .ENE)]

def FROM_DEGREE_ROW_E : List (Int × WindDirection) := [
  (80, .E), (81, .E), (82, .E), (83, .E), (84, .E), (85, .E), (86, .E), (87, .E),
  (88, .E), (89, .E), (90, .E), (91, .E), (92, .E), (93, .E), (94, .E), (95, .E),
  (96, .E), (97, .E), (98, .E), (99, .E), (100, .E), (101, .E)]

def FROM_DEGREE_ROW_ESE : List (Int × WindDirection) := [
  (102, .ESE), (103, .ESE), (104, .ESE), (105, .ESE), (106, .ESE), (107, .ESE), (108, .ESE), (109, .ESE),
  (110, .ESE), (111, .ESE), (112, .ESE), (113, .ESE), (114, .ESE), (115, .ESE), (116, .ESE), (117, .ESE),
  (118, .ESE), (119, .ESE), (120, .ESE), (121, .ESE), (122, .ESE), (123, .ESE), (124, .ESE)]

def FROM_DEGREE_ROW_SE : List (Int × WindDirection) := [
  (125, .SE), (126, .SE), (127, .SE), (128, .SE), (129, .SE), (130, .SE), (131, .SE), (132, .SE),
  (133, .SE), (134, .SE), (135, .SE), (136, .SE), (137, .SE), (138, .SE), (139, .SE), (140, .SE),
  (141, .SE), (142, .SE), (143, .SE), (144, .SE), (145, .SE), (146, .SE)]

def FROM_DEGREE_ROW_SSE : List (Int × WindDirection) := [
  (147, .SSE), (148, .SSE), (149, .SSE), (150, .SSE), (151, .SSE), (152, .SSE), (153, .SSE), (154, .SSE),
  (155, .SSE), (156, .SSE), (157, .SSE), (158, .SSE), (159, .SSE), (160, .SSE), (161, .SSE), (162, .SSE),
  (163, .SSE), (164, .SSE), (165, .SSE), (166, .SSE), (167, .SSE), (168, .SSE), (169, .SSE)]

def FROM_DEGREE_ROW_S : List (Int × WindDirection) := [
  (170, .S), (171, .S), (172, .S), (173, .S), (174, .S), (175, .S), (176, .S), (177, .S),
  (178, .S), (179, .S), (180, .S), (181, .S), (182, .S), (183, .S), (184, .S), (185, .S),
  (186, .S), (187, .S), (188, .S), (189, .S), (190, .S), (191, .S)]

def FROM_DEGREE_ROW_SSW : List (Int × WindDirection) := [
  (192, .SSW), (193, .SSW), (194, .SSW), (195, .SSW), (196, .SSW), (197, .SSW), (198, .SSW), (199, .SSW),
  (200, .SSW), (201, .SSW), (202, .SSW), (203, .SSW), (204, .SSW), (205, .SSW), (206, .SSW), (207, .SSW),
  (208, .SSW), (209, .SSW), (210, .SSW), (211, .SSW), (212, .SSW), (213, .SSW), (214, .SSW)]

def FROM_DEGREE_ROW_SW : List (Int × WindDirection) := [
  (215, .SW), (216, .SW), (217, .SW), (218, .SW), (219, .SW), (220, .SW), (221, .SW), (222, .SW),
  (223, .SW), (224, .SW), (225, .SW), (226, .SW), (227, .SW), (228, .SW), (229, .SW), (230, .SW),
  (231, .SW), (232, .SW), (233, .SW), (234, .SW), (235, .SW), (236, .SW)]

def FROM_DEGREE_ROW_WSW : List (Int × WindDirection) := [
  (237, .WSW), (238, .WSW), (239, .WSW), (240, .WSW), (241, .WSW), (242, .WSW), (243, .WSW), (244, .WSW),
  (245, .WSW), (246, .WSW), (247, .WSW), (248, .WSW), (249, .WSW), (250, .WSW), (251, .WSW), (252, .WSW),
  (253, .WSW), (254, .WSW), (255, .WSW), (256, .WSW), (257, .WSW), (258, .WSW), (259, .WSW)]

def FROM_DEGREE_ROW_W : List (Int × WindDirection) := [
  (260, .W), (261, .W), (262, .W), (263, .W), (264, .W), (265, .W), (266, .W), (267, .W),
  (268, .W), (269, .W), (270, .W), (271, .W), (272, .W), (273, .W), (274, .W), (275, .W),
  (276, .W), (277, .W), (278, .W), (279, .W), (280, .W), (281, .W)]

def FROM_DEGREE_ROW_WNW : List (Int × WindDirection) := [
  (282, .WNW), (283, .WNW), (284, .WNW), (285, .WNW), (286, .WNW), (287, .WNW), (288, .WNW), (289, .WNW),
  (290, .WNW), (291, .WNW), (292, .WNW), (293, .WNW), (294, .WNW), (295, .WNW), (296, .WNW), (297, .WNW),
  (298, .WNW), (299, .WNW), (300, .WNW), (301, .WNW), (302, .WNW), (303, .WNW), (304, .WNW)]

def FROM_DEGREE_ROW_NW : List (Int × WindDirection) := [
  (305, .NW), (306, .NW), (307, .NW), (308, .NW), (309, .NW), (310, .NW), (311, .NW), (312, .NW),
  (313, .NW), (314, .NW), (315, .NW), (316, .NW), (317, .NW), (318, .NW), (319, .NW), (320, .NW),
  (321, .NW), (322, .NW), (323, .NW), (324, .NW), (325, .NW), (326, .NW)]

def FROM_DEGREE_ROW_NNW : List (Int × WindDirection) := [
  (327, .NNW), (328, .NNW), (329, .NNW), (330, .NNW), (331, .NNW), (332, .NNW), (333, .NNW), (334, .NNW),
  (335, .NNW), (336, .NNW), (337, .NNW), (338, .NNW), (339, .NNW), (340, .NNW), (341, .NNW), (342, .NNW),
  (343, .NNW), (344, .NNW), (345, .NNW), (346, .NNW), (347, .NNW), (348, .NNW), (349, .NNW)]

def FROM_DEGREE_MAP : List (Int × WindDirection) :=
  FROM_DEGREE_ROW_N ++ FROM_DEGREE_ROW_NNE ++ FROM_DEGREE_ROW_NE ++ FROM_DEGREE_ROW_ENE ++ FROM_DEGREE_ROW_E ++ FROM_DEGREE_ROW_ESE ++ FROM_DEGREE_ROW_SE ++ FROM_DEGREE_ROW_SSE ++ FROM_DEGREE_ROW_S ++ FROM_DEGREE_ROW_SSW ++ FROM_DEGREE_ROW_SW ++ FROM_DEGREE_ROW_WSW ++ FROM_DEGREE_ROW_W ++ FROM_DEGREE_ROW_WNW ++ FROM_DEGREE_ROW_NW ++ FROM_DEGREE_ROW_NNW

/-- Outcome of `WindDirection.from_degrees`: `absent` is the returned `None`,
`member w` a returned member, `keyError` an uncaught KeyError raised by the
dict lookup. -/
inductive FromDegreesResult
  | absent
  | member (w : WindDirection)
  | keyError
deriving DecidableEq, Repr

/-- Embedding of `WindDirection.from_degrees` (source lines 97-101).  The dict
is keyed by the integers 1..360; a Python lookup with a non-integer-valued key
in range raises KeyError.  A rational argument hits a key exactly when its
denominator is 1. -/
def WindDirection.from_degrees (degrees : ℚ) : FromDegreesResult :=
  if degrees < 1 ∨ degrees > 360 then .absent
  else if degrees.den = 1 then
    match FROM_DEGREE_MAP.lookup degrees.num with
    | some w => .member w
    | none => .keyError
  else .keyError

/-! ### Barometric trend enumeration (source lines 63-69) -/

inductive BarometricTrend
  | falling_rapidly | falling_slowly | steady | rising_slowly | rising_rapidly
deriving DecidableEq, Repr

/-- Embedding of the enum constructor `BarometricTrend(v)`: `none` models the
ValueError raised (and caught by `_post_process_arguments`) for an unknown
code. -/
def barometricTrendOfValue (v : ℚ) : Option BarometricTrend :=
  if v = -60 then some .falling_rapidly
  else if v = -20 then some .falling_slowly
  else if v = 0 then some .steady
  else if v = 20 then some .rising_slowly
  else if v = 60 then some .rising_rapidly
  else none

/-! ### Rain collector types (source lines 122-155) -/

def INCHES_PER_CENTIMETER : ℚ := 393701/1000000

inductive RainCollectorTypeDatabase
  | inches_0_1 | inches_0_01 | millimeters_0_2 | millimeters_1_0 | millimeters_0_1
deriving DecidableEq, Repr

/-- Embedding of `RainCollectorTypeDatabase(code)`: codes 0x0000, 0x1000,
0x2000, 0x3000, 0x6000; any other code raises ValueError (`none`). -/
def RainCollectorTypeDatabase.ofCode : Nat → Option RainCollectorTypeDatabase
  | 0x0000 => some .inches_0_1
  | 0x1000 => some .inches_0_01
  | 0x2000 => some .millimeters_0_2
  | 0x3000 => some .millimeters_1_0
  | 0x6000 => some .millimeters_0_1
  | _ => none

/-- The per-member `clicks_to_inches` lambdas attached to
`RainCollectorTypeDatabase` (source lines 146-155). -/
def RainCollectorTypeDatabase.clicks_to_inches : RainCollectorTypeDatabase → ℚ → ℚ
  | .inches_0_1, c => (1/10) * c
  | .inches_0_01, c => (1/100) * c
  | .millimeters_0_2, c => (1/100) * INCHES_PER_CENTIMETER * c * 2
  | .millimeters_1_0, c => (1/10) * INCHES_PER_CENTIMETER * c
  | .millimeters_0_1, c => (1/100) * INCHES_PER_CENTIMETER * c

/-- `RainCollectorTypeSerial.inches_0_01.clicks_to_inches` (source line 131),
the collector conversion used by the download record and the LOOP2 frame. -/
def serialInches001ClicksToInches (c : ℚ) : ℚ := c * (1/100)

/-! ### Fixed-point rounding

`Decimal.quantize(Decimal('0.1'), rounding=...)` rounds to a multiple of one
tenth; with ROUND_CEILING that is `⌈10x⌉/10` and with ROUND_FLOOR `⌊10x⌋/10`. -/

def quantizeTenthCeil (x : ℚ) : ℚ := ((⌈x * 10⌉ : ℤ) : ℚ) / 10

def quantizeTenthFloor (x : ℚ) : ℚ := ((⌊x * 10⌋ : ℤ) : ℚ) / 10

/-! ### Heat index (source lines 1035-1084) -/

def HEAT_INDEX_THRESHOLD : ℚ := 70
def HI_SECOND_FORMULA_THRESHOLD : ℚ := 80
def HI_0_094 : ℚ := 94/1000
def HI_0_5 : ℚ := 5/10
def HI_1_2 : ℚ := 12/10
def HI_61_0 : ℚ := 61
def HI_68_0 : ℚ := 68
def HI_C1 : ℚ := -42379/1000
def HI_C2 : ℚ := 204901523/100000000
def HI_C3 : ℚ := 1014333127/100000000
def HI_C4 : ℚ := -22475541/100000000
def HI_C5 : ℚ := -683783/100000000
def HI_C6 : ℚ := -5481717/100000000
def HI_C7 : ℚ := 122874/100000000
def HI_C8 : ℚ := 85282/100000000
def HI_C9 : ℚ := -199/100000000
def HI_13 : ℚ := 13
def HI_17 : ℚ := 17
def HI_85 : ℚ := 85
def HI_87 : ℚ := 87
def HI_95 : ℚ := 95

/-- Embedding of the helper `_abs` (source line 1030). -/
def pyAbs (d : ℚ) : ℚ := max d (-d)

/-- The NOAA simplified formula averaged with the temperature (the value the
source names `heat_index` before the `< 80` test). -/
def heatIndexSimpleAvg (T RH : ℚ) : ℚ :=
  (HI_0_5 * (T + HI_61_0 + ((T - HI_68_0) * HI_1_2) + (RH * HI_0_094)) + T) / 2

/-- The NOAA regression polynomial (the second `heat_index` assignment). -/
def heatIndexRegression (T RH : ℚ) : ℚ :=
  HI_C1 + (HI_C2 * T) + (HI_C3 * RH) + (HI_C4 * T * RH) + (HI_C5 * T * T) +
  (HI_C6 * RH * RH) + (HI_C7 * T * T * RH) + (HI_C8 * T * RH * RH) + (HI_C9 * T * T * RH * RH)

/-- The regression with the two empirically gated correction terms
(`if`/`elif` at source lines 1073-1082).  `sqrtDec` is the implementation of
`Decimal.sqrt` (correctly rounded to the context's 28 significant digits in
the Python runtime); it is only reached in the first branch. -/
def heatIndexAdjusted (sqrtDec : ℚ → ℚ) (T RH : ℚ) : ℚ :=
  if 80 ≤ T ∧ T ≤ 112 ∧ RH < HI_13 then
    heatIndexRegression T RH - ((HI_13 - RH) / 4) * sqrtDec ((HI_17 - pyAbs (T - HI_95)) / HI_17)
  else if 80 ≤ T ∧ T ≤ 87 ∧ RH > HI_85 then
    heatIndexRegression T RH + ((RH - HI_85) / 10) * ((HI_87 - T) / 5)
  else heatIndexRegression T RH

/-- Embedding of `calculate_heat_index` (source lines 1035-1084). -/
def calculate_heat_index (sqrtDec : ℚ → ℚ) (temperature relative_humidity : ℚ) : Option ℚ :=
  if temperature < HEAT_INDEX_THRESHOLD then none
  else if heatIndexSimpleAvg temperature relative_humidity < HI_SECOND_FORMULA_THRESHOLD then
    some (quantizeTenthCeil (heatIndexSimpleAvg temperature relative_humidity))
  else
    some (quantizeTenthCeil (heatIndexAdjusted sqrtDec temperature relative_humidity))

/-! ### Wind chill (source lines 1088-1121) -/

def WIND_CHILL_THRESHOLD : ℚ := 40
def WC_C1 : ℚ := 3574/100
def WC_C2 : ℚ := 6215/10000
def WC_C3 : ℚ := 3575/100
def WC_C4 : ℚ := 4275/10000

/-- The NOAA wind-chill regression.  `powDec` is the implementation of the
Decimal power `WS ** Decimal('0.16')` (correctly rounded to the context's 28
significant digits in the Python runtime). -/
def windChillRegression (powDec : ℚ → ℚ) (T WS : ℚ) : ℚ :=
  WC_C1 + (WC_C2 * T) - (WC_C3 * powDec WS) + (WC_C4 * T * powDec WS)

/-- Embedding of `calculate_wind_chill` (source lines 1088-1121). -/
def calculate_wind_chill (powDec : ℚ → ℚ) (temperature wind_speed : ℚ) : Option ℚ :=
  if temperature > WIND_CHILL_THRESHOLD then none
  else if wind_speed = 0 then some temperature
  else
    some (if quantizeTenthFloor (windChillRegression powDec temperature wind_speed) > temperature
          then temperature
          else quantizeTenthFloor (windChillRegression powDec temperature wind_speed))

/-! ### struct.unpack machinery

`ArgV` is the type of one unpacked value: an integer for the numeric format
codes, a byte string for `s`/`c` codes.  `structUnpack` embeds
`struct.unpack_from(fmt, data)`: it reads the format's fields left to right
from the front of `data`, fails (struct.error) when `data` is too short, and
ignores any trailing bytes, exactly like the Python function. -/

inductive ArgV
  | int (v : Int)
  | bytes (bs : List Nat)
deriving DecidableEq, Repr

inductive FmtItem
  | i8 | u8 | i16 | u16 | pad (n : Nat) | str (n : Nat) | char
deriving DecidableEq, Repr

def FmtItem.size : FmtItem → Nat
  | .i8 => 1
  | .u8 => 1
  | .i16 => 2
  | .u16 => 2
  | .pad n => n
  | .str n => n
  | .char => 1

def structSize (fmt : List FmtItem) : Nat := (fmt.map FmtItem.size).sum

/-- Two's-complement interpretation of one byte (format code `b`). -/
def signed8 (u : Nat) : Int := if u < 128 then (u : Int) else (u : Int) - 256

/-- Two's-complement interpretation of a little-endian 16-bit value (code `h`). -/
def signed16 (u : Nat) : Int := if u < 32768 then (u : Int) else (u : Int) - 65536

def structUnpack : List FmtItem → List Nat → Option (List ArgV)
  | [], _ => some []
  | .pad n :: fmt, data =>
    if data.length < n then none else structUnpack fmt (data.drop n)
  | .str n :: fmt, data =>
    if data.length < n then none
    else (structUnpack fmt (data.drop n)).map (ArgV.bytes (data.take n) :: ·)
  | .char :: fmt, data =>
    match data with
    | [] => none
    | b :: rest => (structUnpack fmt rest).map (ArgV.bytes [b] :: ·)
  | .i8 :: fmt, data =>
    match data with
    | [] => none
    | b :: rest => (structUnpack fmt rest).map (ArgV.int (signed8 b) :: ·)
  | .u8 :: fmt, data =>
    match data with
    | [] => none
    | b :: rest => (structUnpack fmt rest).map (ArgV.int b :: ·)
  | .i16 :: fmt, data =>
    match data with
    | b0 :: b1 :: rest => (structUnpack fmt rest).map (ArgV.int (signed16 (b0 + 256 * b1)) :: ·)
    | _ => none
  | .u16 :: fmt, data =>
    match data with
    | b0 :: b1 :: rest => (structUnpack fmt rest).map (ArgV.int (b0 + 256 * b1) :: ·)
    | _ => none

/-! ### Field tables and the shared decode loop

Each record kind's `*_ATTRIBUTE_MAP` row `(name, transform, sentinel)` is
embedded as a `FieldSpec` (the name is replaced by the row's position, which
is how the source loop addresses rows).  The decode loop over the unpacked
arguments is shared by all four record kinds, exactly like the copies in the
source: indices in the kind's verification/special set are skipped, a raw
value equal to the row's sentinel yields `absent`, anything else gets the
row's transform (a transform can raise ValueError on an unknown enum code). -/

inductive Transform
  | number | decimalT | tenths | hundredths | thousandths | windDir
deriving DecidableEq, Repr

inductive FieldVal
  | num (q : ℚ)
  | dir (w : WindDirection)
deriving DecidableEq, Repr

/-- `number` is `STRAIGHT_NUMBER = int`, `decimalT` is
`STRAIGHT_DECIMAL = decimal.Decimal` (both identities on an int value),
`tenths`/`hundredths`/`thousandths` multiply by 0.1/0.01/0.001, and `windDir`
is the `WindDirection` enum constructor. -/
def applyTransform : Transform → Int → Option FieldVal
  | .number, v => some (.num (v : ℚ))
  | .decimalT, v => some (.num (v : ℚ))
  | .tenths, v => some (.num ((v : ℚ) * (1/10)))
  | .hundredths, v => some (.num ((v : ℚ) * (1/100)))
  | .thousandths, v => some (.num ((v : ℚ) * (1/1000)))
  | .windDir, v => (windDirOfValue v).map .dir

structure FieldSpec where
  transform : Transform
  sentinel : Option Int
deriving DecidableEq, Repr

inductive FieldOut
  | skipped
  | absent
  | val (fv : FieldVal)
deriving DecidableEq, Repr

inductive DecodeErr
  | lengthMismatch
  | assertionFailed
  | valueError
  | keyError
deriving DecidableEq, Repr

/-- Decoding of one non-skipped field of the shared loop: a raw value equal
to the row's sentinel yields `absent` (`kwargs[k] = None`), any other raw
value gets the row's transform, whose ValueError (unknown enum code)
propagates. -/
def decodeOneField (sp : FieldSpec) (a : ArgV) : Except DecodeErr FieldOut :=
  match a with
  | .bytes _ => .error .valueError
  | .int v =>
    if sp.sentinel = some v then .ok .absent
    else
      match applyTransform sp.transform v with
      | none => .error .valueError
      | some fv => .ok (.val fv)

/-- The shared per-field decode loop (`for i, v in enumerate(arguments): ...`).
`i` is the index of the first remaining spec; entries whose index lies in
`skip` are not decoded (verification constants and special-handling fields).
An argument list shorter than the spec list cannot arise from a successful
unpack of the corresponding format; it is reported as a ValueError. -/
def fieldsGo (skip : List Nat) : Nat → List FieldSpec → List ArgV → Except DecodeErr (List FieldOut)
  | _, [], _ => .ok []
  | _, _ :: _, [] => .error .valueError
  | i, sp :: sps, a :: rest =>
    if i ∈ skip then
      (fieldsGo skip (i + 1) sps rest).map (FieldOut.skipped :: ·)
    else
      match decodeOneField sp a with
      | .error e => .error e
      | .ok f => (fieldsGo skip (i + 1) sps rest).map (f :: ·)

/-- Embedding of a `*_VERIFICATION_MAP` check loop: every listed argument
index must hold exactly the required constant. -/
def verifyOk (vmap : List (Nat × ArgV)) (args : List ArgV) : Bool :=
  vmap.all fun kv => args.getD kv.1 (.int 0) == kv.2

def getIntArg (args : List ArgV) (i : Nat) : Int :=
  match args.getD i (.int 0) with
  | .int v => v
  | .bytes _ => 0

/-- Shared helper for RECORD_WIND_DIRECTION_SPECIAL: the `degrees` attribute
of a decoded wind-direction member, `none` when the field is absent (a member
is always truthy in Python, `None` falsy). -/
def dirDegreesAt (fields : List FieldOut) (j : Nat) : Option ℚ :=
  match fields.getD j .skipped with
  | .val (.dir w) => some w.degrees
  | _ => none


/-! ### CRC-16 (source lines 737-780) -/

def CRC_ROW_0 : List Nat := [
  0x0, 0x1021, 0x2042, 0x3063, 0x4084, 0x50a5, 0x60c6, 0x70e7,
  0x8108, 0x9129, 0xa14a, 0xb16b, 0xc18c, 0xd1ad, 0xe1ce, 0xf1ef,
  0x1231, 0x210, 0x3273, 0x2252, 0x52b5, 0x4294, 0x72f7, 0x62d6,
  0x9339, 0x8318, 0xb37b, 0xa35a, 0xd3bd, 0xc39c, 0xf3ff, 0xe3de]

def CRC_ROW_1 : List Nat := [
  0x2462, 0x3443, 0x420, 0x1401, 0x64e6, 0x74c7, 0x44a4, 0x5485,
  0xa56a, 0xb54b, 0x8528, 0x9509, 0xe5ee, 0xf5cf, 0xc5ac, 0xd58d,
  0x3653, 0x2672, 0x1611, 0x630, 0x76d7, 0x66f6, 0x5695, 0x46b4,
  0xb75b, 0xa77a, 0x9719, 0x8738, 0xf7df, 0xe7fe, 0xd79d, 0xc7bc]

def CRC_ROW_2 : List Nat := [
  0x48c4, 0x58e5, 0x6886, 0x78a7, 0x840, 0x1861, 0x2802, 0x3823,
  0xc9cc, 0xd9ed, 0xe98e, 0xf9af, 0x8948, 0x9969, 0xa90a, 0xb92b,
  0x5af5, 0x4ad4, 0x7ab7, 0x6a96, 0x1a71, 0xa50, 0x3a33, 0x2a12,
  0xdbfd, 0xcbdc, 0xfbbf, 0xeb9e, 0x9b79, 0x8b58, 0xbb3b, 0xab1a]

def CRC_ROW_3 : List Nat := [
  0x6ca6, 0x7c87, 0x4ce4, 0x5cc5, 0x2c22, 0x3c03, 0xc60, 0x1c41,
  0xedae, 0xfd8f, 0xcdec, 0xddcd, 0xad2a, 0xbd0b, 0x8d68, 0x9d49,
  0x7e97, 0x6eb6, 0x5ed5, 0x4ef4, 0x3e13, 0x2e32, 0x1e51, 0xe70,
  0xff9f, 0xefbe, 0xdfdd, 0xcffc, 0xbf1b, 0xaf3a, 0x9f59, 0x8f78]

def CRC_ROW_4 : List Nat := [
  0x9188, 0x81a9, 0xb1ca, 0xa1eb, 0xd10c, 0xc12d, 0xf14e, 0xe16f,
  0x1080, 0xa1, 0x30c2, 0x20e3, 0x5004, 0x4025, 0x7046, 0x6067,
  0x83b9, 0x9398, 0xa3fb, 0xb3da, 0xc33d, 0xd31c, 0xe37f, 0xf35e,
  0x2b1, 0x1290, 0x22f3, 0x32d2, 0x4235, 0x5214, 0x6277, 0x7256]

def CRC_ROW_5 : List Nat := [
  0xb5ea, 0xa5cb, 0x95a8, 0x8589, 0xf56e, 0xe54f, 0xd52c, 0xc50d,
  0x34e2, 0x24c3, 0x14a0, 0x481, 0x7466, 0x6447, 0x5424, 0x4405,
  0xa7db, 0xb7fa, 0x8799, 0x97b8, 0xe75f, 0xf77e, 0xc71d, 0xd73c,
  0x26d3, 0x36f2, 0x691, 0x16b0, 0x6657, 0x7676, 0x4615, 0x5634]

def CRC_ROW_6 : List Nat := [
  0xd94c, 0xc96d, 0xf90e, 0xe92f, 0x99c8, 0x89e9, 0xb98a, 0xa9ab,
  0x5844, 0x4865, 0x7806, 0x6827, 0x18c0, 0x8e1, 0x3882, 0x28a3,
  0xcb7d, 0xdb5c, 0xeb3f, 0xfb1e, 0x8bf9, 0x9bd8, 0xabbb, 0xbb9a,
  0x4a75, 0x5a54, 0x6a37, 0x7a16, 0xaf1, 0x1ad0, 0x2ab3, 0x3a92]

def CRC_ROW_7 : List Nat := [
  0xfd2e, 0xed0f, 0xdd6c, 0xcd4d, 0xbdaa, 0xad8b, 0x9de8, 0x8dc9,
  0x7c26, 0x6c07, 0x5c64, 0x4c45, 0x3ca2, 0x2c83, 0x1ce0, 0xcc1,
  0xef1f, 0xff3e, 0xcf5d, 0xdf7c, 0xaf9b, 0xbfba, 0x8fd9, 0x9ff8,
  0x6e17, 0x7e36, 0x4e55, 0x5e74, 0x2e93, 0x3eb2, 0xed1, 0x1ef0]

def WEATHERLINK_CRC_TABLE : List Nat :=
  CRC_ROW_0 ++ CRC_ROW_1 ++ CRC_ROW_2 ++ CRC_ROW_3 ++ CRC_ROW_4 ++ CRC_ROW_5 ++ CRC_ROW_6 ++ CRC_ROW_7

/-- Embedding of `calculate_weatherlink_crc`: fold each input byte with
`crc = table[((crc >> 8) & 0xFF) ^ byte] ^ ((crc << 8) & 0xFF00)`, starting
from 0. -/
def crcStep (crc byte : Nat) : Nat :=
  (WEATHERLINK_CRC_TABLE.getD (((crc >>> 8) &&& 0xFF) ^^^ byte) 0) ^^^ ((crc <<< 8) &&& 0xFF00)

def calculate_weatherlink_crc (data_bytes : List Nat) : Nat :=
  data_bytes.foldl crcStep 0

/-! ### Record formats and field tables -/

/-- `DAILY_SUMMARY_FORMAT` (source lines 211-253): `=bx` then 25 `h` fields,
`b b h h`, pads `2x x 27x`, `bx 2x h 8x`, `2h h 4x 2h h 2h h`, pads
`24x 15x`, `h 11x`. -/
def dsFmt : List FmtItem :=
  [.i8, .pad 1] ++ List.replicate 25 .i16 ++
  [.i8, .i8, .i16, .i16, .pad 2, .pad 1, .pad 27, .i8, .pad 1, .pad 2, .i16, .pad 8,
   .i16, .i16, .i16, .pad 4, .i16, .i16, .i16, .i16, .i16, .i16, .pad 24, .pad 15,
   .i16, .pad 11]

def DAILY_SUMMARY_LENGTH : Nat := 176

def dsVerificationMap : List (Nat × ArgV) := [(0, .int 2), (30, .int 3)]

def dsSkip : List Nat := [0, 30]

/-- `DAILY_SUMMARY_ATTRIBUTE_MAP` (source lines 259-302), by position. -/
def dsSpecs : List FieldSpec := [
  ⟨.number, none⟩,                         -- ds1_version
  ⟨.number, none⟩,                         -- minutes
  ⟨.tenths, some DASH_LARGE_NEGATIVE⟩,     -- temperature_outside_high
  ⟨.tenths, some DASH_LARGE⟩,              -- temperature_outside_low
  ⟨.tenths, some DASH_LARGE_NEGATIVE⟩,     -- temperature_inside_high
  ⟨.tenths, some DASH_LARGE⟩,              -- temperature_inside_low
  ⟨.tenths, some DASH_LARGE⟩,              -- temperature_outside_average
  ⟨.tenths, some DASH_LARGE⟩,              -- temperature_inside_average
  ⟨.tenths, some DASH_LARGE_NEGATIVE⟩,     -- wind_chill_high
  ⟨.tenths, some DASH_LARGE⟩,              -- wind_chill_low
  ⟨.tenths, some DASH_LARGE_NEGATIVE⟩,     -- dew_point_high
  ⟨.tenths, some DASH_LARGE⟩,              -- dew_point_low
  ⟨.tenths, some DASH_LARGE⟩,              -- wind_chill_average
  ⟨.tenths, some DASH_LARGE⟩,              -- dew_point_average
  ⟨.tenths, some DASH_SMALL⟩,              -- humidity_outside_high
  ⟨.tenths, some DASH_SMALL⟩,              -- humidity_outside_low
  ⟨.tenths, some DASH_SMALL⟩,              -- humidity_inside_high
  ⟨.tenths, some DASH_SMALL⟩,              -- humidity_inside_low
  ⟨.tenths, some DASH_SMALL⟩,              -- humidity_outside_average
  ⟨.thousandths, some DASH_ZERO⟩,          -- barometric_pressure_high
  ⟨.thousandths, some DASH_ZERO⟩,          -- barometric_pressure_low
  ⟨.thousandths, some DASH_ZERO⟩,          -- barometric_pressure_average
  ⟨.tenths, some DASH_ZERO⟩,               -- wind_speed_high
  ⟨.tenths, some DASH_ZERO⟩,               -- wind_speed_average
  ⟨.tenths, some DASH_ZERO⟩,               -- wind_daily_run
  ⟨.tenths, some DASH_LARGE_NEGATIVE⟩,     -- wind_speed_high_10_minute_average
  ⟨.windDir, some DASH_SMALL⟩,             -- wind_speed_high_direction
  ⟨.windDir, some DASH_SMALL⟩,             -- wind_speed_high_10_minute_average_direction
  ⟨.thousandths, none⟩,                    -- rain_total
  ⟨.hundredths, none⟩,                     -- rain_rate_high
  ⟨.number, none⟩,                         -- ds2_version
  ⟨.number, some DASH_LARGE_NEGATIVE⟩,     -- total_wind_packets
  ⟨.tenths, some DASH_LARGE_NEGATIVE⟩,     -- heat_index_high
  ⟨.tenths, some DASH_LARGE⟩,              -- heat_index_low
  ⟨.tenths, some DASH_LARGE⟩,              -- heat_index_average
  ⟨.tenths, some DASH_LARGE_NEGATIVE⟩,     -- thw_index_high
  ⟨.tenths, some DASH_LARGE⟩,              -- thw_index_low
  ⟨.tenths, some DASH_ZERO⟩,               -- integrated_heating_degree_days
  ⟨.tenths, some DASH_LARGE_NEGATIVE⟩,     -- temperature_wet_bulb_high
  ⟨.tenths, some DASH_LARGE⟩,              -- temperature_wet_bulb_low
  ⟨.tenths, some DASH_LARGE⟩,              -- temperature_wet_bulb_average
  ⟨.tenths, some DASH_ZERO⟩                -- integrated_cooling_degree_days
]

/-- `DailySummary.load_from_wlk` on the bytes remaining in the stream: read
exactly DAILY_SUMMARY_LENGTH bytes (a shorter stream yields a short read and a
struct.error), unpack, check the verification map, then run the field loop.
The record's `date` attribute is built from the caller-supplied year/month/day
arguments, not from the buffer, and is omitted here. -/
def dailySummaryLoadFromWlk (stream : List Nat) : Except DecodeErr (List FieldOut) :=
  match structUnpack dsFmt (stream.take DAILY_SUMMARY_LENGTH) with
  | none => .error .lengthMismatch
  | some args =>
    if verifyOk dsVerificationMap args then fieldsGo dsSkip 0 dsSpecs args
    else .error .assertionFailed

/-- `RECORD_FORMAT_WLK` (source lines 331-355). -/
def wlkFmt : List FmtItem :=
  [.i8, .i8, .pad 2, .i16, .i16, .i16, .i16, .i16, .i16, .i16, .i16, .u16, .i16,
   .i16, .i16, .i8, .i8, .i16, .i16, .i16, .u8, .u8, .pad 50]

def RECORD_LENGTH_WLK : Nat := 88

def wlkVerificationMap : List (Nat × ArgV) := [(0, .int 1)]

/-- `RECORD_VERIFICATION_MAP_WLK` keys and `RECORD_SPECIAL_HANDLING_WLK`. -/
def wlkSkip : List Nat := [0, 10, 11]

/-- `RECORD_ATTRIBUTE_MAP_WLK` (source lines 391-413). -/
def wlkSpecs : List FieldSpec := [
  ⟨.number, none⟩,                         -- record_version
  ⟨.number, none⟩,                         -- minutes_covered
  ⟨.number, none⟩,                         -- minutes_past_midnight
  ⟨.tenths, some DASH_LARGE⟩,              -- temperature_outside
  ⟨.tenths, some DASH_LARGE_NEGATIVE⟩,     -- temperature_outside_high
  ⟨.tenths, some DASH_LARGE⟩,              -- temperature_outside_low
  ⟨.tenths, some DASH_LARGE⟩,              -- temperature_inside
  ⟨.thousandths, some DASH_ZERO⟩,          -- barometric_pressure
  ⟨.tenths, some DASH_SMALL⟩,              -- humidity_outside
  ⟨.tenths, some DASH_SMALL⟩,              -- humidity_inside
  ⟨.number, none⟩,                         -- __special (raw rain clicks)
  ⟨.number, none⟩,                         -- __special (rain rate clicks)
  ⟨.tenths, some DASH_SMALL⟩,              -- wind_speed
  ⟨.tenths, some DASH_ZERO⟩,               -- wind_speed_high
  ⟨.windDir, some DASH_SMALL⟩,             -- wind_direction_prevailing
  ⟨.windDir, some DASH_SMALL⟩,             -- wind_direction_speed_high
  ⟨.number, some DASH_ZERO⟩,               -- number_of_wind_samples
  ⟨.number, some DASH_LARGE_NEGATIVE⟩,     -- solar_radiation
  ⟨.number, some DASH_LARGE_NEGATIVE⟩,     -- solar_radiation_high
  ⟨.tenths, some DASH_SMALL⟩,              -- uv_index
  ⟨.tenths, some DASH_SMALL⟩               -- uv_index_high
]

/-- The part of `ArchiveIntervalRecord.load_from_wlk` output that is byte
derived.  The `date`/`timestamp` attributes additionally combine the
caller-supplied year/month/day with `minutes_past_midnight` and are omitted. -/
structure WlkRecord where
  fields : List FieldOut
  rain_collector_type : RainCollectorTypeDatabase
  rain_amount_clicks : Nat
  rain_rate_clicks : Int
  rain_amount : ℚ
  rain_rate : ℚ
  wind_direction_prevailing_degrees : Option ℚ
  wind_direction_speed_high_degrees : Option ℚ
deriving DecidableEq, Repr

/-- `ArchiveIntervalRecord.load_from_wlk` (source lines 444-488). -/
def archiveIntervalLoadFromWlk (stream : List Nat) : Except DecodeErr WlkRecord :=
  match structUnpack wlkFmt (stream.take RECORD_LENGTH_WLK) with
  | none => .error .lengthMismatch
  | some args =>
    if verifyOk wlkVerificationMap args then
      match fieldsGo wlkSkip 0 wlkSpecs args with
      | .error e => .error e
      | .ok fields =>
        let rain_code := (getIntArg args 10).toNat
        let rain_collector_code := rain_code &&& 0xF000
        let rain_clicks := rain_code &&& 0x0FFF
        let rain_rate_clicks := getIntArg args 11
        match RainCollectorTypeDatabase.ofCode rain_collector_code with
        | none => .error .valueError
        | some rct =>
          .ok { fields := fields,
                rain_collector_type := rct,
                rain_amount_clicks := rain_clicks,
                rain_rate_clicks := rain_rate_clicks,
                rain_amount := rct.clicks_to_inches (rain_clicks : ℚ),
                rain_rate := rct.clicks_to_inches (rain_rate_clicks : ℚ),
                wind_direction_prevailing_degrees := dirDegreesAt fields 14,
                wind_direction_speed_high_degrees := dirDegreesAt fields 15 }
    else .error .assertionFailed

/-- `RECORD_FORMAT_DOWNLOAD` (source lines 356-380). -/
def dlFmt : List FmtItem :=
  [.i16, .i16, .i16, .i16, .i16, .u16, .u16, .u16, .i16, .u16, .i16, .u8, .u8,
   .u8, .u8, .u8, .u8, .u8, .u8, .i16, .u8, .pad 9, .u8, .pad 9]

def RECORD_LENGTH_DOWNLOAD : Nat := 52

def dlVerificationMap : List (Nat × ArgV) := [(21, .int 0)]

/-- `RECORD_VERIFICATION_MAP_DOWNLOAD` keys and
`RECORD_SPECIAL_HANDLING_DOWNLOAD`. -/
def dlSkip : List Nat := [21, 0, 1, 5, 6]

/-- `RECORD_ATTRIBUTE_MAP_DOWNLOAD` (source lines 414-437). -/
def dlSpecs : List FieldSpec := [
  ⟨.number, none⟩,                         -- __special (date stamp)
  ⟨.number, none⟩,                         -- __special (time stamp)
  ⟨.tenths, some DASH_LARGE⟩,              -- temperature_outside
  ⟨.tenths, some DASH_LARGE_NEGATIVE⟩,     -- temperature_outside_high
  ⟨.tenths, some DASH_LARGE⟩,              -- temperature_outside_low
  ⟨.number, none⟩,                         -- __special (rain clicks)
  ⟨.number, none⟩,                         -- __special (rain rate clicks)
  ⟨.thousandths, some DASH_ZERO⟩,          -- barometric_pressure
  ⟨.number, some DASH_LARGE⟩,              -- solar_radiation
  ⟨.number, some DASH_ZERO⟩,               -- number_of_wind_samples
  ⟨.tenths, some DASH_LARGE⟩,              -- temperature_inside
  ⟨.number, some DASH_SMALL⟩,              -- humidity_inside
  ⟨.number, some DASH_SMALL⟩,              -- humidity_outside
  ⟨.decimalT, some DASH_SMALL⟩,            -- wind_speed
  ⟨.decimalT, some DASH_ZERO⟩,             -- wind_speed_high
  ⟨.windDir, some DASH_SMALL⟩,             -- wind_direction_speed_high
  ⟨.windDir, some DASH_SMALL⟩,             -- wind_direction_prevailing
  ⟨.tenths, some DASH_SMALL⟩,              -- uv_index
  ⟨.thousandths, some DASH_ZERO⟩,          -- evapotranspiration
  ⟨.number, some DASH_LARGE⟩,              -- solar_radiation_high
  ⟨.tenths, some DASH_SMALL⟩,              -- uv_index_high
  ⟨.number, none⟩                          -- record_version
]

structure DownloadRecord where
  fields : List FieldOut
  minutes_covered : Int
  rain_amount_clicks : Int
  rain_rate_clicks : Int
  rain_amount : ℚ
  rain_rate : ℚ
  wind_direction_prevailing_degrees : Option ℚ
  wind_direction_speed_high_degrees : Option ℚ
  timestamp : Int
deriving DecidableEq, Repr

/-- `ArchiveIntervalRecord.load_from_download` (source lines 490-535).
`.ok none` is the soft `return None` skip for a datestamp below 1; the record
`date` (a `datetime` built from the timestamp) is omitted. -/
def archiveIntervalLoadFromDownload (minutes_covered : Int) (stream : List Nat) :
    Except DecodeErr (Option DownloadRecord) :=
  match structUnpack dlFmt (stream.take RECORD_LENGTH_DOWNLOAD) with
  | none => .error .lengthMismatch
  | some args =>
    if getIntArg args 0 < 1 then .ok none
    else if verifyOk dlVerificationMap args then
      match fieldsGo dlSkip 0 dlSpecs args with
      | .error e => .error e
      | .ok fields =>
        let rain_clicks := getIntArg args 5
        let rain_rate_clicks := getIntArg args 6
        .ok (some { fields := fields,
                    minutes_covered := minutes_covered,
                    rain_amount_clicks := rain_clicks,
                    rain_rate_clicks := rain_rate_clicks,
                    rain_amount := serialInches001ClicksToInches (rain_clicks : ℚ),
                    rain_rate := serialInches001ClicksToInches (rain_rate_clicks : ℚ),
                    wind_direction_speed_high_degrees := dirDegreesAt fields 15,
                    wind_direction_prevailing_degrees := dirDegreesAt fields 16,
                    timestamp := getIntArg args 0 * 65536 + getIntArg args 1 })
    else .error .assertionFailed

/-- `LOOP2_RECORD_FORMAT` (source lines 544-594). -/
def loop2Fmt : List FmtItem :=
  [.str 3, .i8, .u8, .u16, .u16, .i16, .u8, .i16, .u8, .u8, .u16, .u16, .u16,
   .u16, .u16, .u16, .u16, .i16, .u8, .u8, .u8, .i16, .i16, .i16, .u16, .u8,
   .u16, .u16, .pad 2, .u16, .u16, .u16, .u16, .u16, .pad 11, .u8, .pad 1,
   .pad 6, .u8, .pad 3, .u16, .u16, .u16, .u16, .u16, .u16, .char, .char, .u16]

def LOOP_RECORD_LENGTH : Nat := 99

/-- `LOOP2_RECORD_VERIFICATION_MAP_WLK` (source lines 596-614). -/
def loop2VerificationMap : List (Nat × ArgV) := [
  (0, .bytes [76, 79, 79]),   -- b'LOO'
  (2, .int 1),
  (3, .int 0x7FFF),
  (9, .int 0xFF),
  (15, .int 0x7FFF),
  (16, .int 0x7FFF),
  (18, .int 0xFF),
  (20, .int 0xFF),
  (33, .int 0xFF),
  (35, .int 0x7FFF),
  (36, .int 0x7FFF),
  (37, .int 0x7FFF),
  (38, .int 0x7FFF),
  (39, .int 0x7FFF),
  (40, .int 0x7FFF),
  (41, .bytes [10]),          -- b'\n'
  (42, .bytes [13])           -- b'\r'
]

/-- `LOOP2_RECORD_SPECIAL_HANDLING` equals the verification-map key set. -/
def loop2Skip : List Nat := [0, 2, 3, 9, 15, 16, 18, 20, 33, 35, 36, 37, 38, 39, 40, 41, 42]

/-- `LOOP2_RECORD_ATTRIBUTE_MAP` (source lines 618-654). -/
def loop2Specs : List FieldSpec := [
  ⟨.number, none⟩,                         -- _special
  ⟨.number, some 80⟩,                      -- barometric_trend
  ⟨.number, none⟩,                         -- _special
  ⟨.number, none⟩,                         -- _special
  ⟨.thousandths, some DASH_ZERO⟩,          -- barometric_pressure
  ⟨.tenths, some DASH_LARGE⟩,              -- temperature_inside
  ⟨.number, some DASH_SMALL⟩,              -- humidity_inside
  ⟨.tenths, some DASH_LARGE⟩,              -- temperature_outside
  ⟨.decimalT, some DASH_SMALL⟩,            -- wind_speed
  ⟨.number, none⟩,                         -- _special
  ⟨.number, some DASH_ZERO⟩,               -- wind_direction_degrees
  ⟨.tenths, some DASH_ZERO⟩,               -- wind_speed_10_minute_average
  ⟨.tenths, some DASH_ZERO⟩,               -- wind_speed_2_minute_average
  ⟨.tenths, some DASH_ZERO⟩,               -- wind_speed_10_minute_gust
  ⟨.number, some DASH_ZERO⟩,               -- wind_speed_10_minute_gust_direction_degrees
  ⟨.number, none⟩,                         -- _special
  ⟨.number, none⟩,                         -- _special
  ⟨.decimalT, some DASH_SMALL⟩,            -- dew_point
  ⟨.number, none⟩,                         -- _special
  ⟨.number, some DASH_SMALL⟩,              -- humidity_outside
  ⟨.number, none⟩,                         -- _special
  ⟨.number, some DASH_SMALL⟩,              -- heat_index
  ⟨.number, some DASH_SMALL⟩,              -- wind_chill
  ⟨.number, some DASH_SMALL⟩,              -- thsw_index
  ⟨.number, none⟩,                         -- rain_rate_clicks
  ⟨.tenths, some DASH_SMALL⟩,              -- uv_index
  ⟨.number, some DASH_LARGE⟩,              -- solar_radiation
  ⟨.number, none⟩,                         -- rain_clicks_this_storm
  ⟨.number, none⟩,                         -- rain_clicks_today
  ⟨.number, none⟩,                         -- rain_clicks_15_minutes
  ⟨.number, none⟩,                         -- rain_clicks_1_hour
  ⟨.thousandths, some DASH_ZERO⟩,          -- evapotranspiration
  ⟨.number, none⟩,                         -- rain_clicks_24_hours
  ⟨.number, none⟩,                         -- _special
  ⟨.number, some 60⟩                       -- minute_in_hour
]

/-- Result of `LoopRecord._get_loop_2_arguments` plus
`_post_process_arguments`: the raw loop output (`fields`), the `crc_match`
flag, and the post-processed attributes. -/
structure Loop2Record where
  crc_match : Bool
  fields : List FieldOut
  barometric_trend : Option BarometricTrend
  wind_direction : Option WindDirection
  wind_speed_10_minute_gust_direction : Option WindDirection
  rain_rate : Option ℚ
  rain_amount_this_storm : Option ℚ
  rain_amount_today : Option ℚ
  rain_amount_15_minutes : Option ℚ
  rain_amount_1_hour : Option ℚ
  rain_amount_24_hours : Option ℚ
deriving DecidableEq, Repr

/-- LOOP_WIND_DIRECTION_SPECIAL step for one field: Python checks the raw
int's truthiness (absent or zero degrees give `None`), then calls
`WindDirection.from_degrees`, whose KeyError would propagate. -/
def loopDirSpecial (fields : List FieldOut) (j : Nat) : Except DecodeErr (Option WindDirection) :=
  match fields.getD j .skipped with
  | .val (.num v) =>
    if v ≠ 0 then
      match WindDirection.from_degrees v with
      | .member w => .ok (some w)
      | .absent => .ok none
      | .keyError => .error .keyError
    else .ok none
  | _ => .ok none

/-- LOOP_RAIN_AMOUNT_SPECIAL step for one field: a truthy click count is
converted with `RainCollectorTypeSerial.inches_0_01.clicks_to_inches`. -/
def loopRainSpecial (fields : List FieldOut) (j : Nat) : Option ℚ :=
  match fields.getD j .skipped with
  | .val (.num v) => if v ≠ 0 then some (serialInches001ClicksToInches v) else none
  | _ => none

/-- `LoopRecord._get_loop_2_arguments` (source lines 688-712) together with
`_post_process_arguments` (source lines 714-734). -/
def loop2GetArguments (stream : List Nat) : Except DecodeErr Loop2Record :=
  let data := stream.take LOOP_RECORD_LENGTH
  match structUnpack loop2Fmt data with
  | none => .error .lengthMismatch
  | some unpacked =>
    if verifyOk loop2VerificationMap unpacked then
      match fieldsGo loop2Skip 0 loop2Specs unpacked with
      | .error e => .error e
      | .ok fields =>
        let trend :=
          match fields.getD 1 .skipped with
          | .val (.num v) => barometricTrendOfValue v
          | _ => none
        match loopDirSpecial fields 10, loopDirSpecial fields 14 with
        | .error e, _ => .error e
        | .ok _, .error e => .error e
        | .ok wd, .ok gd =>
          .ok { crc_match := calculate_weatherlink_crc data == 0,
                fields := fields,
                barometric_trend := trend,
                wind_direction := wd,
                wind_speed_10_minute_gust_direction := gd,
                rain_rate := loopRainSpecial fields 24,
                rain_amount_this_storm := loopRainSpecial fields 27,
                rain_amount_today := loopRainSpecial fields 28,
                rain_amount_15_minutes := loopRainSpecial fields 29,
                rain_amount_1_hour := loopRainSpecial fields 30,
                rain_amount_24_hours := loopRainSpecial fields 32 }
    else .error .assertionFailed


/-! ### Rolling 10-minute wind average (source lines 1239-1343)

The direction values are "any hashable value"; the embedding is polymorphic
over a decidable-equality type.  Timestamps are `datetime` values manipulated
only by whole-minute `timedelta` subtraction, embedded as integer minutes.
`minutes_covered` passes through `int(...)`; the embedding takes the already
truncated integer. -/

/-- A `collections.deque(maxlen=10)` extension: append and keep the last 10. -/
def pushCap10 {β : Type} (q xs : List β) : List β :=
  let q2 := q ++ xs
  q2.drop (q2.length - 10)

/-- The distinct elements of `l` in first-appearance order (the iteration
order of `collections.Counter(l)`). -/
def firstOccurrences {α : Type} [DecidableEq α] (l : List α) : List α :=
  l.foldl (fun acc x => if x ∈ acc then acc else acc ++ [x]) []

/-- `collections.Counter(l).most_common()[0][0]`: an element of maximal
count; CPython's stable sort keeps the first-inserted element on ties. -/
def mostCommon {α : Type} [DecidableEq α] (l : List α) : Option α :=
  (firstOccurrences l).foldl
    (fun best x =>
      match best with
      | none => some x
      | some b => if l.count x > l.count b then some x else best)
    none

structure WindState (α : Type) where
  speedQ : List ℚ
  dirQ : List α
  tsQ : List Int
  currentMax : ℚ
  curDirs : List α
  curTs : List Int

def windInitState (α : Type) : WindState α := ⟨[], [], [], 0, [], []⟩

/-- One loop iteration of `calculate_10_minute_wind_average` (for a record
that passed the minutes-covered check): replicate the sample once per covered
minute into the three 10-slot queues, and when the speed queue holds exactly
10 entries compare the rolling average against the running maximum. -/
def windStep {α : Type} (st : WindState α) (r : ℚ × α × Int × Int) : WindState α :=
  let ws := r.1
  let wd := r.2.1
  let ts := r.2.2.1
  let m := r.2.2.2.toNat
  let speedQ := pushCap10 st.speedQ (List.replicate m ws)
  let dirQ := pushCap10 st.dirQ (List.replicate m wd)
  let tsQ :=
    if r.2.2.2 = 1 then pushCap10 st.tsQ [ts]
    else pushCap10 st.tsQ ((List.range m).reverse.map fun i => ts - (i : Int))
  if speedQ.length = 10 then
    let average := speedQ.sum / 10
    if average > st.currentMax then
      { speedQ := speedQ, dirQ := dirQ, tsQ := tsQ,
        currentMax := average, curDirs := dirQ, curTs := tsQ }
    else
      { speedQ := speedQ, dirQ := dirQ, tsQ := tsQ,
        currentMax := st.currentMax, curDirs := st.curDirs, curTs := st.curTs }
  else
    { speedQ := speedQ, dirQ := dirQ, tsQ := tsQ,
      currentMax := st.currentMax, curDirs := st.curDirs, curTs := st.curTs }

/-- The final `if current_max > ZERO` block of
`calculate_10_minute_wind_average`. -/
def windFinalize {α : Type} [DecidableEq α] (st : WindState α) :
    Option ℚ × Option α × Option Int × Option Int :=
  if st.currentMax > 0 then
    (some st.currentMax,
     if st.curDirs = [] then none else mostCommon st.curDirs,
     st.curTs.head?,
     st.curTs.getLast?)
  else (none, none, none, none)

/-- The record loop: a record covering more than 10 minutes aborts the whole
computation with the all-`None` result. -/
def windAvgGo {α : Type} [DecidableEq α] (st : WindState α) :
    List (ℚ × α × Int × Int) → Option ℚ × Option α × Option Int × Option Int
  | [] => windFinalize st
  | r :: rs =>
    if r.2.2.2 > 10 then (none, none, none, none)
    else windAvgGo (windStep st r) rs

/-- Embedding of `calculate_10_minute_wind_average(records)` where a record is
`(wind_speed, wind_direction, timestamp_station, minutes_covered)`. -/
def calculate_10_minute_wind_average {α : Type} [DecidableEq α]
    (records : List (ℚ × α × Int × Int)) :
    Option ℚ × Option α × Option Int × Option Int :=
  windAvgGo (windInitState α) records


/-! ### Concrete buffers and helper values used by the theorems below -/

/-- A structurally valid 176-byte daily-summary buffer: discriminator bytes 2
(offset 0) and 3 (offset 88), every other byte zero. -/
def dsGoodBuf : List Nat := ((List.replicate 176 0).set 0 2).set 88 3

def exceptIsOk {e s : Type} : Except e s → Bool
  | .ok _ => true
  | .error _ => false

/-- Concrete unpacked-argument list for a daily summary: verification values
2 and 3 in place, the temperature_outside_high slot (index 2) holding its
sentinel -32768, all other slots 0. -/
def c5WArgs : List ArgV :=
  (((List.replicate 42 (ArgV.int 0)).set 0 (.int 2)).set 30 (.int 3)).set 2 (.int (-32768))


/-! ## Theorems -/

/-! ### Sanity checks on the transcription -/

example : structSize dsFmt = DAILY_SUMMARY_LENGTH := by decide
example : structSize wlkFmt = RECORD_LENGTH_WLK := by decide
example : structSize dlFmt = RECORD_LENGTH_DOWNLOAD := by decide
example : structSize loop2Fmt = LOOP_RECORD_LENGTH := by decide
example : dsSpecs.length = 42 := by decide
example : wlkSpecs.length = 21 := by decide
example : dlSpecs.length = 22 := by decide
example : loop2Specs.length = 35 := by decide
example : FROM_DEGREE_MAP.length = 360 := by decide
example : WEATHERLINK_CRC_TABLE.length = 256 := by decide


/-- C3: for every calendar date-time representable in the packed 32-bit
format (year 2000..2127, valid day/month/hour/minute), decoding the encoding
yields the date-time back, where the encoding is exactly
`((day + month*32 + (year-2000)*512) << 16) + (minute + hour*100)`. -/
theorem c3_timestamp_roundtrip (d : DateTime5)
    (hy1 : 2000 ≤ d.year) (hy2 : d.year ≤ 2127)
    (hm1 : 1 ≤ d.month) (hm2 : d.month ≤ 12)
    (hd1 : 1 ≤ d.day) (hd2 : d.day ≤ 31)
    (hh : d.hour ≤ 23) (hmi : d.minute ≤ 59) :
    convert_timestamp_to_datetime (convert_datetime_to_timestamp d) = d := by
  obtain ⟨y, mo, da, hr, mi⟩ := d
  simp only at hy1 hy2 hm1 hm2 hd1 hd2 hh hmi
  simp only [convert_datetime_to_timestamp, convert_timestamp_to_datetime,
    Nat.shiftLeft_eq, Nat.shiftRight_eq_div_pow, show (2 : Nat) ^ 16 = 65536 from rfl]
  have h1 : ((da + mo * 32 + (y - 2000) * 512) * 65536 + (mi + hr * 100)) / 65536
      = da + mo * 32 + (y - 2000) * 512 := by omega
  rw [h1]
  have h2 : (da + mo * 32 + (y - 2000) * 512) / 512 = y - 2000 := by omega
  rw [h2]
  simp only [DateTime5.mk.injEq]
  omega

/-- Witness for c3_timestamp_roundtrip at a concrete date-time. -/
theorem c3_witness :
    convert_timestamp_to_datetime (convert_datetime_to_timestamp ⟨2020, 4, 15, 12, 34⟩) =
      ⟨2020, 4, 15, 12, 34⟩ :=
  c3_timestamp_roundtrip ⟨2020, 4, 15, 12, 34⟩ (by decide) (by decide) (by decide)
    (by decide) (by decide) (by decide) (by decide) (by decide)

/-- C8: `from_degrees` is absent at 0, 361 and every rational outside [1, 360];
1 and 360 both map to N; each member's `degrees` is `value * 22.5`, except N
(code 0) whose `degrees` is 360, not 0. -/
theorem c8_wind_direction :
    WindDirection.from_degrees 0 = .absent ∧
    WindDirection.from_degrees 361 = .absent ∧
    (∀ dg : ℚ, dg < 1 ∨ dg > 360 → WindDirection.from_degrees dg = .absent) ∧
    WindDirection.from_degrees 1 = .member .N ∧
    WindDirection.from_degrees 360 = .member .N ∧
    WindDirection.degrees .N = 360 ∧
    (∀ w : WindDirection, w ≠ .N → WindDirection.degrees w = (w.value : ℚ) * (45/2)) := by
  refine ⟨by decide, by decide, ?_, by decide, by decide, ?_, ?_⟩
  · intro dg hdg
    unfold WindDirection.from_degrees
    rw [if_pos hdg]
  · norm_num [WindDirection.degrees, WindDirection.value]
  · intro w hw
    cases w <;>
      first
        | exact absurd rfl hw
        | norm_num [WindDirection.degrees, WindDirection.value]

/-- Witness for c8_wind_direction: an out-of-range input and a non-N member. -/
theorem c8_witness :
    WindDirection.from_degrees 400 = .absent ∧
    WindDirection.degrees .E = (WindDirection.value .E : ℚ) * (45/2) :=
  ⟨c8_wind_direction.2.2.1 400 (Or.inr (by norm_num)),
   c8_wind_direction.2.2.2.2.2.2 .E (by simp)⟩

/-- C9 (implicit): `from_degrees` raises an uncaught KeyError on the
non-integer input 90.5, which lies strictly inside (1, 360), instead of
returning a member or absent: the reverse map is keyed by exact integer
degrees. -/
theorem c9_from_degrees_key_error :
    WindDirection.from_degrees (181/2) = .keyError ∧
    (1 : ℚ) < 181/2 ∧ (181/2 : ℚ) < 360 ∧ (181/2 : ℚ).den ≠ 1 := by
  have hden : (181/2 : ℚ).den = 2 := by norm_num
  refine ⟨?_, by norm_num, by norm_num, by rw [hden]; norm_num⟩
  unfold WindDirection.from_degrees
  rw [if_neg (by push_neg; constructor <;> norm_num), if_neg (by rw [hden]; norm_num)]

/-- C2 (amended): the heat index is absent below 70 F; at or above 70 F it is
a 1-decimal ceiling-rounded value; heatIndex(69, 50) is absent; and
heatIndex(90, 50) is 94.6 F (not the 86.4 F the specification states).
`sqrtDec` is the Decimal square-root implementation; neither (69, 50) nor
(90, 50) reaches the square-root branch (it needs RH below 13), so every
conjunct holds for every `sqrtDec`. -/
theorem c2_heat_index (sqrtDec : ℚ → ℚ) :
    (∀ T RH : ℚ, T < 70 → calculate_heat_index sqrtDec T RH = none) ∧
    (∀ T RH : ℚ, 70 ≤ T → ∃ k : ℤ, calculate_heat_index sqrtDec T RH = some ((k : ℚ) / 10)) ∧
    calculate_heat_index sqrtDec 69 50 = none ∧
    calculate_heat_index sqrtDec 90 50 = some (473/5) := by
  refine ⟨?_, ?_, ?_, ?_⟩
  · intro T RH hT
    unfold calculate_heat_index
    rw [if_pos (show T < HEAT_INDEX_THRESHOLD by unfold HEAT_INDEX_THRESHOLD; exact hT)]
  · intro T RH hT
    unfold calculate_heat_index
    rw [if_neg (show ¬ T < HEAT_INDEX_THRESHOLD by unfold HEAT_INDEX_THRESHOLD; exact not_lt.2 hT)]
    split
    · exact ⟨_, rfl⟩
    · exact ⟨_, rfl⟩
  · unfold calculate_heat_index
    rw [if_pos (by norm_num [HEAT_INDEX_THRESHOLD])]
  · unfold calculate_heat_index
    rw [if_neg (by norm_num [HEAT_INDEX_THRESHOLD]),
        if_neg (by norm_num [heatIndexSimpleAvg, HI_0_5, HI_61_0, HI_68_0, HI_1_2, HI_0_094,
          HI_SECOND_FORMULA_THRESHOLD])]
    unfold heatIndexAdjusted
    rw [if_neg (by norm_num [HI_13]), if_neg (by norm_num [HI_85])]
    unfold quantizeTenthCeil
    rw [show (⌈heatIndexRegression 90 50 * 10⌉ : ℤ) = 946 by
      rw [Int.ceil_eq_iff]
      norm_num [heatIndexRegression, HI_C1, HI_C2, HI_C3, HI_C4, HI_C5, HI_C6, HI_C7,
        HI_C8, HI_C9]]
    norm_num

/-- Witness for c2_heat_index with a concrete square-root stand-in. -/
theorem c2_witness :
    calculate_heat_index (fun _ => (0 : ℚ)) 60 50 = none ∧
    calculate_heat_index (fun _ => (0 : ℚ)) 90 50 = some (473/5) :=
  ⟨(c2_heat_index _).1 60 50 (by norm_num), (c2_heat_index _).2.2.2⟩

/-- Counterexample to C2 as stated: the code computes heatIndex(90, 50) =
94.6 F (the NOAA regression value; neither correction term fires at RH 50;
ceiling-rounded), which differs from the claimed 86.4 F.  The square-root
argument is irrelevant on this input. -/
theorem c2_counterexample :
    calculate_heat_index (fun _ => (0 : ℚ)) 90 50 = some (473/5) ∧
    ((473 : ℚ)/5 ≠ 432/5) := by
  constructor
  · unfold calculate_heat_index
    rw [if_neg (by norm_num [HEAT_INDEX_THRESHOLD]),
        if_neg (by norm_num [heatIndexSimpleAvg, HI_0_5, HI_61_0, HI_68_0, HI_1_2, HI_0_094,
          HI_SECOND_FORMULA_THRESHOLD])]
    unfold heatIndexAdjusted
    rw [if_neg (by norm_num [HI_13]), if_neg (by norm_num [HI_85])]
    unfold quantizeTenthCeil
    rw [show (⌈heatIndexRegression 90 50 * 10⌉ : ℤ) = 946 by
      rw [Int.ceil_eq_iff]
      norm_num [heatIndexRegression, HI_C1, HI_C2, HI_C3, HI_C4, HI_C5, HI_C6, HI_C7,
        HI_C8, HI_C9]]
    norm_num
  · norm_num


/-- Supporting real-analysis fact: the real number `10 ^ 0.16` lies in
[1.4454, 1.4455].  The Python runtime computes `Decimal(10) ** Decimal('0.16')`
correctly rounded to 28 significant digits, so its value also lies in this
interval; this justifies the hypothesis of the wind-chill theorem below. -/
theorem ten_rpow_016_bounds :
    (14454/10000 : ℝ) ≤ (10 : ℝ) ^ ((16 : ℝ)/100) ∧
    (10 : ℝ) ^ ((16 : ℝ)/100) ≤ 14455/10000 := by
  have h10 : (0 : ℝ) ≤ 10 := by norm_num
  have hpos : 0 < (10 : ℝ) ^ ((16 : ℝ)/100) := Real.rpow_pos_of_pos (by norm_num) _
  have key : ((10 : ℝ) ^ ((16 : ℝ)/100)) ^ (25 : ℕ) = 10000 := by
    rw [← Real.rpow_natCast ((10 : ℝ) ^ ((16 : ℝ)/100)) 25, ← Real.rpow_mul h10]
    norm_num
  constructor
  · by_contra hcon
    push_neg at hcon
    have hlt : ((10 : ℝ) ^ ((16 : ℝ)/100)) ^ (25 : ℕ) < (14454/10000 : ℝ) ^ (25 : ℕ) :=
      pow_lt_pow_left₀ hcon (le_of_lt hpos) (by norm_num)
    rw [key] at hlt
    have : (14454/10000 : ℝ) ^ (25 : ℕ) < 10000 := by norm_num
    linarith
  · by_contra hcon
    push_neg at hcon
    have hlt : (14455/10000 : ℝ) ^ (25 : ℕ) < ((10 : ℝ) ^ ((16 : ℝ)/100)) ^ (25 : ℕ) :=
      pow_lt_pow_left₀ hcon (by norm_num) (by norm_num)
    rw [key] at hlt
    have : (10000 : ℝ) < (14455/10000 : ℝ) ^ (25 : ℕ) := by norm_num
    linarith

/-- C4: the wind chill is absent above 40 F; is the unchanged temperature at
wind speed 0; otherwise is defined and clamped to never exceed the input
temperature; windChill(50, 10) is absent; windChill(30, 10) = 21.2 F, which
does not exceed 30.  `powDec` is the Decimal implementation of
`WS ** Decimal('0.16')`; the hypotheses pin its value at 10 to the interval
[1.4454, 1.4455] that contains the real `10 ^ 0.16`
(see `ten_rpow_016_bounds`). -/
theorem c4_wind_chill (powDec : ℚ → ℚ)
    (hp1 : 14454/10000 ≤ powDec 10) (hp2 : powDec 10 ≤ 14455/10000) :
    (∀ T WS : ℚ, 40 < T → calculate_wind_chill powDec T WS = none) ∧
    (∀ T : ℚ, T ≤ 40 → calculate_wind_chill powDec T 0 = some T) ∧
    (∀ T WS : ℚ, T ≤ 40 → ∃ v, calculate_wind_chill powDec T WS = some v ∧ v ≤ T) ∧
    calculate_wind_chill powDec 50 10 = none ∧
    calculate_wind_chill powDec 30 10 = some (106/5) ∧
    ((106 : ℚ)/5 ≤ 30) := by
  have habove : ∀ T WS : ℚ, 40 < T → calculate_wind_chill powDec T WS = none := by
    intro T WS hT
    unfold calculate_wind_chill
    rw [if_pos (show T > WIND_CHILL_THRESHOLD by unfold WIND_CHILL_THRESHOLD; exact hT)]
  have hcalm : ∀ T : ℚ, T ≤ 40 → calculate_wind_chill powDec T 0 = some T := by
    intro T hT
    unfold calculate_wind_chill
    rw [if_neg (show ¬ T > WIND_CHILL_THRESHOLD by
          unfold WIND_CHILL_THRESHOLD; exact not_lt.2 hT),
        if_pos rfl]
  refine ⟨habove, hcalm, ?_, habove 50 10 (by norm_num), ?_, by norm_num⟩
  · intro T WS hT
    by_cases hws : WS = 0
    · subst hws
      exact ⟨T, hcalm T hT, le_refl T⟩
    · unfold calculate_wind_chill
      rw [if_neg (show ¬ T > WIND_CHILL_THRESHOLD by
            unfold WIND_CHILL_THRESHOLD; exact not_lt.2 hT),
          if_neg hws]
      refine ⟨_, rfl, ?_⟩
      split
      · exact le_refl T
      · next hgt => exact le_of_not_lt hgt
  · unfold calculate_wind_chill
    rw [if_neg (by norm_num [WIND_CHILL_THRESHOLD]), if_neg (by norm_num)]
    have hfloor : (⌊windChillRegression powDec 30 10 * 10⌋ : ℤ) = 212 := by
      rw [Int.floor_eq_iff]
      unfold windChillRegression WC_C1 WC_C2 WC_C3 WC_C4
      constructor
      · push_cast
        linarith
      · push_cast
        linarith
    unfold quantizeTenthFloor
    rw [hfloor]
    norm_num

/-- Witness for c4_wind_chill: a concrete power stand-in inside the interval. -/
theorem c4_witness :
    calculate_wind_chill (fun _ => (14454/10000 : ℚ)) 30 10 = some (106/5) ∧
    calculate_wind_chill (fun _ => (14454/10000 : ℚ)) 50 10 = none :=
  ⟨(c4_wind_chill _ (by norm_num) (by norm_num)).2.2.2.2.1,
   (c4_wind_chill _ (by norm_num) (by norm_num)).1 50 10 (by norm_num)⟩


/-- Elements of a capped queue extension come from the old queue or the new
elements. -/
theorem mem_pushCap10 {β : Type} {x : β} {q xs : List β} (h : x ∈ pushCap10 q xs) :
    x ∈ q ∨ x ∈ xs := by
  simp only [pushCap10] at h
  exact List.mem_append.1 (List.mem_of_mem_drop h)

/-- A zero-speed sample keeps the speed queue all-zero and leaves a zero
running maximum unchanged: the rolling average of an all-zero window is 0,
which is never strictly greater than the running maximum 0. -/
theorem windStep_calm {α : Type} [DecidableEq α] (st : WindState α) (r : ℚ × α × Int × Int)
    (hq : ∀ x ∈ st.speedQ, x = 0) (hmax : st.currentMax = 0) (hr : r.1 = 0) :
    (∀ x ∈ (windStep st r).speedQ, x = 0) ∧ (windStep st r).currentMax = 0 := by
  have hq' : ∀ x ∈ pushCap10 st.speedQ (List.replicate r.2.2.2.toNat r.1), x = 0 := by
    intro x hx
    rcases mem_pushCap10 hx with hx1 | hx2
    · exact hq x hx1
    · rw [List.eq_of_mem_replicate hx2]
      exact hr
  have hsum : (pushCap10 st.speedQ (List.replicate r.2.2.2.toNat r.1)).sum = 0 :=
    List.sum_eq_zero hq'
  refine ⟨?_, ?_⟩
  · have hsq : (windStep st r).speedQ = pushCap10 st.speedQ (List.replicate r.2.2.2.toNat r.1) := by
      simp only [windStep]
      split_ifs <;> rfl
    rw [hsq]
    exact hq'
  · simp only [windStep]
    split_ifs <;> dsimp only <;> first
      | exact hmax
      | (rw [hsum]; norm_num)

/-- From any intermediate state, a record list containing a sample that
covers more than 10 minutes drives the loop to the all-`None` early return. -/
theorem windAvgGo_early_abort {α : Type} [DecidableEq α] (st : WindState α)
    (l : List (ℚ × α × Int × Int)) (r : ℚ × α × Int × Int)
    (hr : r ∈ l) (h : r.2.2.2 > 10) :
    windAvgGo st l = (none, none, none, none) := by
  induction l generalizing st with
  | nil => cases hr
  | cons a tl ih =>
    simp only [windAvgGo]
    split_ifs with ha
    · rfl
    · rcases List.mem_cons.1 hr with rfl | hmem
      · exact absurd h ha
      · exact ih _ hmem

/-- From any all-zero-speed state with zero running maximum, a list of
zero-speed records finishes with the all-`None` result. -/
theorem windAvgGo_calm {α : Type} [DecidableEq α] (l : List (ℚ × α × Int × Int))
    (st : WindState α) (hl : ∀ r ∈ l, r.1 = 0)
    (hq : ∀ x ∈ st.speedQ, x = 0) (hmax : st.currentMax = 0) :
    windAvgGo st l = (none, none, none, none) := by
  induction l generalizing st with
  | nil => simp [windAvgGo, windFinalize, hmax]
  | cons a tl ih =>
    simp only [windAvgGo]
    split_ifs with ha
    · rfl
    · obtain ⟨h1, h2⟩ := windStep_calm st a hq hmax (hl a (List.mem_cons_self a tl))
      exact ih _ (fun r hr => hl r (List.mem_cons_of_mem a hr)) h1 h2

/-- C6: over 10 one-minute samples of constant speed 5 and direction N the
rolling wind average returns speed 5, direction N, the first sample's
timestamp as start and the tenth sample's timestamp as end; over 9 such
samples the window never fills and everything is absent; and any input
containing a sample that covers more than 10 minutes yields the all-absent
result. -/
theorem c6_wind_average :
    (∀ t0 t1 t2 t3 t4 t5 t6 t7 t8 t9 : Int,
      calculate_10_minute_wind_average
        [((5:ℚ), WindDirection.N, t0, (1:Int)), (5, .N, t1, 1), (5, .N, t2, 1), (5, .N, t3, 1),
         (5, .N, t4, 1), (5, .N, t5, 1), (5, .N, t6, 1), (5, .N, t7, 1), (5, .N, t8, 1),
         (5, .N, t9, 1)] = (some 5, some WindDirection.N, some t0, some t9)) ∧
    (∀ t0 t1 t2 t3 t4 t5 t6 t7 t8 : Int,
      calculate_10_minute_wind_average
        [((5:ℚ), WindDirection.N, t0, (1:Int)), (5, .N, t1, 1), (5, .N, t2, 1), (5, .N, t3, 1),
         (5, .N, t4, 1), (5, .N, t5, 1), (5, .N, t6, 1), (5, .N, t7, 1), (5, .N, t8, 1)]
        = (none, none, none, none)) ∧
    (∀ (pre post : List (ℚ × WindDirection × Int × Int)) (r : ℚ × WindDirection × Int × Int),
      r.2.2.2 > 10 →
      calculate_10_minute_wind_average (pre ++ r :: post) = (none, none, none, none)) := by
  refine ⟨?_, ?_, ?_⟩
  · intro t0 t1 t2 t3 t4 t5 t6 t7 t8 t9
    norm_num [calculate_10_minute_wind_average, windAvgGo, windStep, pushCap10, windInitState,
      windFinalize, mostCommon, firstOccurrences, List.count_cons, List.count_nil]
    intro h
    exact (List.cons_ne_nil _ _ h).elim
  · intro t0 t1 t2 t3 t4 t5 t6 t7 t8
    norm_num [calculate_10_minute_wind_average, windAvgGo, windStep, pushCap10, windInitState,
      windFinalize, mostCommon, firstOccurrences]
  · intro pre post r hr
    exact windAvgGo_early_abort _ _ r (by simp) hr

/-- Witness for c6_wind_average: a single sample covering 11 minutes. -/
theorem c6_witness :
    calculate_10_minute_wind_average [((5:ℚ), WindDirection.N, (0:Int), (11:Int))] =
      (none, none, none, none) :=
  c6_wind_average.2.2 [] [] ((5:ℚ), WindDirection.N, (0:Int), (11:Int)) (by norm_num)

/-- C10 (implicit): when every wind speed in the input is 0 the function
returns all four results absent, even when the 10-slot window fills, because
a window is recorded only when its average strictly exceeds a running maximum
initialized to 0. -/
theorem c10_calm_wind_all_absent (records : List (ℚ × WindDirection × Int × Int))
    (h : ∀ r ∈ records, r.1 = 0) :
    calculate_10_minute_wind_average records = (none, none, none, none) :=
  windAvgGo_calm records _ h (fun x hx => absurd hx (List.not_mem_nil x)) rfl

/-- Witness for c10_calm_wind_all_absent: ten one-minute calm samples, enough
to fill the 10-slot window. -/
theorem c10_witness :
    calculate_10_minute_wind_average
      [((0:ℚ), WindDirection.N, (0:Int), (1:Int)), (0, .N, 1, 1), (0, .N, 2, 1), (0, .N, 3, 1),
       (0, .N, 4, 1), (0, .N, 5, 1), (0, .N, 6, 1), (0, .N, 7, 1), (0, .N, 8, 1), (0, .N, 9, 1)]
      = (none, none, none, none) :=
  c10_calm_wind_all_absent _ (by intro r hr; fin_cases hr <;> rfl)


/-- Inversion for one step of the shared field loop. -/
theorem fieldsGo_cons_ok (skip : List Nat) (i : Nat) (s : FieldSpec) (ss : List FieldSpec)
    (a : ArgV) (rest : List ArgV) (out : List FieldOut)
    (hok : fieldsGo skip i (s :: ss) (a :: rest) = .ok out) :
    ∃ f outTl, out = f :: outTl ∧ fieldsGo skip (i + 1) ss rest = .ok outTl ∧
      ((i ∈ skip ∧ f = .skipped) ∨ (i ∉ skip ∧ decodeOneField s a = .ok f)) := by
  simp only [fieldsGo] at hok
  split_ifs at hok with hski
  · cases hrec : fieldsGo skip (i + 1) ss rest with
    | error e => rw [hrec] at hok; simp [Except.map] at hok
    | ok outTl =>
      rw [hrec] at hok
      simp only [Except.map, Except.ok.injEq] at hok
      exact ⟨.skipped, outTl, hok.symm, rfl, Or.inl ⟨hski, rfl⟩⟩
  · cases hone : decodeOneField s a with
    | error e => rw [hone] at hok; simp at hok
    | ok f =>
      rw [hone] at hok
      cases hrec : fieldsGo skip (i + 1) ss rest with
      | error e => rw [hrec] at hok; simp [Except.map] at hok
      | ok outTl =>
        rw [hrec] at hok
        simp only [Except.map, Except.ok.injEq] at hok
        exact ⟨f, outTl, hok.symm, rfl, Or.inr ⟨hski, rfl⟩⟩

/-- A successful run of the shared field loop produces exactly one output
entry per attribute-map row. -/
theorem fieldsGo_ok_length (skip : List Nat) :
    ∀ (specs : List FieldSpec) (i : Nat) (args : List ArgV) (out : List FieldOut),
      fieldsGo skip i specs args = .ok out → out.length = specs.length := by
  intro specs
  induction specs with
  | nil =>
    intro i args out hok
    cases args with
    | nil =>
      simp only [fieldsGo, Except.ok.injEq] at hok
      simp [← hok]
    | cons a rest =>
      simp only [fieldsGo, Except.ok.injEq] at hok
      simp [← hok]
  | cons s ss ih =>
    intro i args out hok
    cases args with
    | nil => exact absurd hok (by simp [fieldsGo])
    | cons a rest =>
      obtain ⟨f, outTl, rfl, hrec, _⟩ := fieldsGo_cons_ok skip i s ss a rest out hok
      simp [ih _ _ _ hrec]

/-- The shared field loop decodes every non-skipped index independently: the
output entry at index `j` is exactly `decodeOneField` of the row and the raw
argument at `j`. -/
theorem fieldsGo_get (skip : List Nat) :
    ∀ (specs : List FieldSpec) (i : Nat) (args : List ArgV) (out : List FieldOut),
      fieldsGo skip i specs args = .ok out →
      ∀ (j : Nat) (sp : FieldSpec) (a : ArgV),
        specs.get? j = some sp → args.get? j = some a → (i + j) ∉ skip →
        ∃ f, decodeOneField sp a = .ok f ∧ out.get? j = some f := by
  intro specs
  induction specs with
  | nil =>
    intro i args out hok j sp a hsp
    simp at hsp
  | cons s ss ih =>
    intro i args out hok j sp a hsp harg hskip
    cases args with
    | nil => exact absurd hok (by simp [fieldsGo])
    | cons a0 rest =>
      obtain ⟨f, outTl, rfl, hrec, hbranch⟩ := fieldsGo_cons_ok skip i s ss a0 rest out hok
      cases j with
      | zero =>
        simp only [List.get?_cons_zero, Option.some.injEq] at hsp harg
        subst hsp
        subst harg
        rcases hbranch with ⟨hski, _⟩ | ⟨_, hone⟩
        · exact absurd hski (by simpa using hskip)
        · exact ⟨f, hone, rfl⟩
      | succ k =>
        simp only [List.get?_cons_succ] at hsp harg
        have hk : (i + 1) + k ∉ skip := by
          intro hc
          apply hskip
          have heq : i + 1 + k = i + (k + 1) := by omega
          rwa [heq] at hc
        obtain ⟨f2, hone2, hout2⟩ := ih (i + 1) rest outTl hrec k sp a hsp harg hk
        exact ⟨f2, hone2, by simpa using hout2⟩

/-- A sentinel raw value decodes to `absent`. -/
theorem decodeOneField_sentinel {sp : FieldSpec} {s v : Int}
    (hs : sp.sentinel = some s) (hv : v = s) :
    decodeOneField sp (.int v) = .ok .absent := by
  simp [decodeOneField, hs, hv]

/-- A non-sentinel raw value decodes to the transform applied to it. -/
theorem decodeOneField_value {sp : FieldSpec} {s v : Int} {fv : FieldVal}
    (hs : sp.sentinel = some s) (hv : v ≠ s)
    (ht : applyTransform sp.transform v = some fv) :
    decodeOneField sp (.int v) = .ok (.val fv) := by
  simp only [decodeOneField]
  rw [if_neg (by rw [hs]; exact fun hcon => hv (Option.some.inj hcon).symm), ht]

/-- Sentinel semantics of one record kind's field loop, for a sentinel-bearing
non-skipped row: a raw value equal to the sentinel decodes to absent, any
other raw value decodes to the row's transform applied to it. -/
theorem sentinelSemantics (skip : List Nat) (specs : List FieldSpec)
    (args : List ArgV) (out : List FieldOut) (j : Nat) (sp : FieldSpec) (s v : Int)
    (hok : fieldsGo skip 0 specs args = .ok out)
    (hsp : specs.get? j = some sp) (hsent : sp.sentinel = some s)
    (harg : args.get? j = some (.int v)) (hskip : j ∉ skip) :
    (v = s → out.get? j = some .absent) ∧
    (v ≠ s → ∀ fv, applyTransform sp.transform v = some fv →
      out.get? j = some (.val fv)) := by
  have h0 : (0 : Nat) + j ∉ skip := by simpa using hskip
  obtain ⟨f, hf, hout⟩ := fieldsGo_get skip specs 0 args out hok j sp (.int v) hsp harg h0
  constructor
  · intro hv
    rw [decodeOneField_sentinel hsent hv] at hf
    simp only [Except.ok.injEq] at hf
    rw [← hf] at hout
    exact hout
  · intro hv fv ht
    rw [decodeOneField_value hsent hv ht] at hf
    simp only [Except.ok.injEq] at hf
    rw [← hf] at hout
    exact hout

/-- C5: for every sentinel-bearing, non-special, non-verification field of
every record kind (daily summary, stored archive interval, download archive
interval, LOOP2 telemetry frame), a raw decoded value equal to the field's
sentinel yields an absent field, and any other raw value yields the field's
transform applied to the raw value. -/
theorem c5_sentinel_fields :
    (∀ (args : List ArgV) (out : List FieldOut) (j : Nat) (sp : FieldSpec) (s v : Int),
      fieldsGo dsSkip 0 dsSpecs args = .ok out →
      dsSpecs.get? j = some sp → sp.sentinel = some s →
      args.get? j = some (.int v) → j ∉ dsSkip →
      (v = s → out.get? j = some .absent) ∧
      (v ≠ s → ∀ fv, applyTransform sp.transform v = some fv →
        out.get? j = some (.val fv))) ∧
    (∀ (args : List ArgV) (out : List FieldOut) (j : Nat) (sp : FieldSpec) (s v : Int),
      fieldsGo wlkSkip 0 wlkSpecs args = .ok out →
      wlkSpecs.get? j = some sp → sp.sentinel = some s →
      args.get? j = some (.int v) → j ∉ wlkSkip →
      (v = s → out.get? j = some .absent) ∧
      (v ≠ s → ∀ fv, applyTransform sp.transform v = some fv →
        out.get? j = some (.val fv))) ∧
    (∀ (args : List ArgV) (out : List FieldOut) (j : Nat) (sp : FieldSpec) (s v : Int),
      fieldsGo dlSkip 0 dlSpecs args = .ok out →
      dlSpecs.get? j = some sp → sp.sentinel = some s →
      args.get? j = some (.int v) → j ∉ dlSkip →
      (v = s → out.get? j = some .absent) ∧
      (v ≠ s → ∀ fv, applyTransform sp.transform v = some fv →
        out.get? j = some (.val fv))) ∧
    (∀ (args : List ArgV) (out : List FieldOut) (j : Nat) (sp : FieldSpec) (s v : Int),
      fieldsGo loop2Skip 0 loop2Specs args = .ok out →
      loop2Specs.get? j = some sp → sp.sentinel = some s →
      args.get? j = some (.int v) → j ∉ loop2Skip →
      (v = s → out.get? j = some .absent) ∧
      (v ≠ s → ∀ fv, applyTransform sp.transform v = some fv →
        out.get? j = some (.val fv))) :=
  ⟨fun args out j sp s v hok hsp hs harg hskip =>
      sentinelSemantics dsSkip dsSpecs args out j sp s v hok hsp hs harg hskip,
   fun args out j sp s v hok hsp hs harg hskip =>
      sentinelSemantics wlkSkip wlkSpecs args out j sp s v hok hsp hs harg hskip,
   fun args out j sp s v hok hsp hs harg hskip =>
      sentinelSemantics dlSkip dlSpecs args out j sp s v hok hsp hs harg hskip,
   fun args out j sp s v hok hsp hs harg hskip =>
      sentinelSemantics loop2Skip loop2Specs args out j sp s v hok hsp hs harg hskip⟩

/-- Witness for c5_sentinel_fields: the daily-summary field loop over
`c5WArgs` succeeds and decodes the temperature_outside_high slot (raw value
-32768, its sentinel) to absent. -/
theorem c5_witness :
    ∃ out, fieldsGo dsSkip 0 dsSpecs c5WArgs = .ok out ∧
      out.get? 2 = some FieldOut.absent := by
  have hshape : exceptIsOk (fieldsGo dsSkip 0 dsSpecs c5WArgs) = true := by decide
  cases hok : fieldsGo dsSkip 0 dsSpecs c5WArgs with
  | error e => rw [hok] at hshape; simp [exceptIsOk] at hshape
  | ok out =>
    refine ⟨out, rfl, ?_⟩
    exact (c5_sentinel_fields.1 c5WArgs out 2 ⟨.tenths, some DASH_LARGE_NEGATIVE⟩ (-32768)
      (-32768) hok (by decide) rfl (by decide) (by decide)).1 rfl


/-- `struct.unpack_from` semantics: a buffer shorter than the format's size
fails (struct.error). -/
theorem structUnpack_short :
    ∀ (fmt : List FmtItem) (data : List Nat), data.length < structSize fmt →
      structUnpack fmt data = none := by
  intro fmt
  induction fmt with
  | nil =>
    intro data h
    simp [structSize] at h
  | cons it fmt ih =>
    intro data h
    have hsz : structSize (it :: fmt) = it.size + structSize fmt := by
      simp [structSize]
    rw [hsz] at h
    cases it with
    | pad n =>
      simp only [structUnpack]
      split_ifs with hlen
      · rfl
      · apply ih
        rw [List.length_drop]
        simp only [FmtItem.size] at h
        omega
    | str n =>
      simp only [structUnpack]
      split_ifs with hlen
      · rfl
      · rw [ih (data.drop n) (by rw [List.length_drop]; simp only [FmtItem.size] at h; omega)]
        rfl
    | char =>
      cases data with
      | nil => simp only [structUnpack]
      | cons b rest =>
        simp only [structUnpack]
        rw [ih rest (by simp only [FmtItem.size] at h; simp at h ⊢; omega)]
        rfl
    | i8 =>
      cases data with
      | nil => simp only [structUnpack]
      | cons b rest =>
        simp only [structUnpack]
        rw [ih rest (by simp only [FmtItem.size] at h; simp at h ⊢; omega)]
        rfl
    | u8 =>
      cases data with
      | nil => simp only [structUnpack]
      | cons b rest =>
        simp only [structUnpack]
        rw [ih rest (by simp only [FmtItem.size] at h; simp at h ⊢; omega)]
        rfl
    | i16 =>
      cases data with
      | nil => simp only [structUnpack]
      | cons b0 tail =>
        cases tail with
        | nil => simp only [structUnpack]
        | cons b1 rest =>
          simp only [structUnpack]
          rw [ih rest (by simp only [FmtItem.size] at h; simp at h ⊢; omega)]
          rfl
    | u16 =>
      cases data with
      | nil => simp only [structUnpack]
      | cons b0 tail =>
        cases tail with
        | nil => simp only [structUnpack]
        | cons b1 rest =>
          simp only [structUnpack]
          rw [ih rest (by simp only [FmtItem.size] at h; simp at h ⊢; omega)]
          rfl

/-- C1 (amended): for each of the four record kinds, a stream holding fewer
bytes than the record's fixed length makes the decoder fail with
LengthMismatch (the short read leaves `struct.unpack_from` without enough
bytes), and a successful decode always populates every attribute-map row
(42/21/22/35 field entries); a stream LONGER than the fixed length is not
rejected — the read stops at the fixed length and decoding proceeds (see the
counterexample to the claim as stated). -/
theorem c1_length_mismatch :
    (∀ stream : List Nat, stream.length < DAILY_SUMMARY_LENGTH →
      dailySummaryLoadFromWlk stream = .error .lengthMismatch) ∧
    (∀ stream : List Nat, stream.length < RECORD_LENGTH_WLK →
      archiveIntervalLoadFromWlk stream = .error .lengthMismatch) ∧
    (∀ (mc : Int) (stream : List Nat), stream.length < RECORD_LENGTH_DOWNLOAD →
      archiveIntervalLoadFromDownload mc stream = .error .lengthMismatch) ∧
    (∀ stream : List Nat, stream.length < LOOP_RECORD_LENGTH →
      loop2GetArguments stream = .error .lengthMismatch) ∧
    (∀ (stream : List Nat) (out : List FieldOut),
      dailySummaryLoadFromWlk stream = .ok out → out.length = 42) ∧
    (∀ (stream : List Nat) (rec : WlkRecord),
      archiveIntervalLoadFromWlk stream = .ok rec → rec.fields.length = 21) ∧
    (∀ (mc : Int) (stream : List Nat) (rec : DownloadRecord),
      archiveIntervalLoadFromDownload mc stream = .ok (some rec) → rec.fields.length = 22) ∧
    (∀ (stream : List Nat) (rec : Loop2Record),
      loop2GetArguments stream = .ok rec → rec.fields.length = 35) := by
  have hds : structSize dsFmt = 176 := by decide
  have hwlk : structSize wlkFmt = 88 := by decide
  have hdl : structSize dlFmt = 52 := by decide
  have hloop : structSize loop2Fmt = 99 := by decide
  refine ⟨?_, ?_, ?_, ?_, ?_, ?_, ?_, ?_⟩
  · intro stream h
    unfold dailySummaryLoadFromWlk
    rw [structUnpack_short dsFmt _ (by
      rw [List.length_take, hds]
      simp only [DAILY_SUMMARY_LENGTH] at h ⊢
      omega)]
  · intro stream h
    unfold archiveIntervalLoadFromWlk
    rw [structUnpack_short wlkFmt _ (by
      rw [List.length_take, hwlk]
      simp only [RECORD_LENGTH_WLK] at h ⊢
      omega)]
  · intro mc stream h
    unfold archiveIntervalLoadFromDownload
    rw [structUnpack_short dlFmt _ (by
      rw [List.length_take, hdl]
      simp only [RECORD_LENGTH_DOWNLOAD] at h ⊢
      omega)]
  · intro stream h
    unfold loop2GetArguments
    dsimp only
    rw [structUnpack_short loop2Fmt _ (by
      rw [List.length_take, hloop]
      simp only [LOOP_RECORD_LENGTH] at h ⊢
      omega)]
  · intro stream out hok
    unfold dailySummaryLoadFromWlk at hok
    cases hu : structUnpack dsFmt (stream.take DAILY_SUMMARY_LENGTH) with
    | none => rw [hu] at hok; cases hok
    | some args =>
      rw [hu] at hok
      dsimp only at hok
      split_ifs at hok with hv
      · rw [fieldsGo_ok_length dsSkip dsSpecs 0 args out hok]
        decide
  · intro stream rec hok
    unfold archiveIntervalLoadFromWlk at hok
    cases hu : structUnpack wlkFmt (stream.take RECORD_LENGTH_WLK) with
    | none => rw [hu] at hok; cases hok
    | some args =>
      rw [hu] at hok
      dsimp only at hok
      split_ifs at hok with hv
      · cases hfg : fieldsGo wlkSkip 0 wlkSpecs args with
        | error e => rw [hfg] at hok; cases hok
        | ok fields =>
          rw [hfg] at hok
          dsimp only at hok
          cases hrc : RainCollectorTypeDatabase.ofCode ((getIntArg args 10).toNat &&& 0xF000) with
          | none => rw [hrc] at hok; cases hok
          | some rct =>
            rw [hrc] at hok
            cases hok
            simp only []
            rw [fieldsGo_ok_length wlkSkip wlkSpecs 0 args fields hfg]
            decide
  · intro mc stream rec hok
    unfold archiveIntervalLoadFromDownload at hok
    cases hu : structUnpack dlFmt (stream.take RECORD_LENGTH_DOWNLOAD) with
    | none => rw [hu] at hok; cases hok
    | some args =>
      rw [hu] at hok
      dsimp only at hok
      split_ifs at hok with h1 h2
      · simp at hok
      · cases hfg : fieldsGo dlSkip 0 dlSpecs args with
        | error e => rw [hfg] at hok; cases hok
        | ok fields =>
          rw [hfg] at hok
          dsimp only at hok
          rw [Except.ok.injEq, Option.some.injEq] at hok
          rw [← hok]
          simp only []
          rw [fieldsGo_ok_length dlSkip dlSpecs 0 args fields hfg]
          decide
  · intro stream rec hok
    unfold loop2GetArguments at hok
    dsimp only at hok
    cases hu : structUnpack loop2Fmt (stream.take LOOP_RECORD_LENGTH) with
    | none => rw [hu] at hok; cases hok
    | some unpacked =>
      rw [hu] at hok
      dsimp only at hok
      split_ifs at hok with hv
      · cases hfg : fieldsGo loop2Skip 0 loop2Specs unpacked with
        | error e => rw [hfg] at hok; cases hok
        | ok fields =>
          rw [hfg] at hok
          dsimp only at hok
          cases hd1 : loopDirSpecial fields 10 with
          | error e => rw [hd1] at hok; cases hok
          | ok wd =>
            cases hd2 : loopDirSpecial fields 14 with
            | error e => rw [hd1, hd2] at hok; cases hok
            | ok gd =>
              rw [hd1, hd2] at hok
              dsimp only at hok
              cases hok
              simp only []
              rw [fieldsGo_ok_length loop2Skip loop2Specs 0 unpacked fields hfg]
              decide

/-- Witness for c1_length_mismatch: the empty stream for two of the kinds. -/
theorem c1_witness :
    dailySummaryLoadFromWlk [] = .error .lengthMismatch ∧
    loop2GetArguments [] = .error .lengthMismatch :=
  ⟨c1_length_mismatch.1 [] (by decide), c1_length_mismatch.2.2.2.1 [] (by decide)⟩

/-- Counterexample to C1 as stated: a 177-byte buffer, one byte longer than
the daily summary's fixed 176-byte length, does NOT fail with LengthMismatch.
`struct.unpack_from` (like `read(LENGTH)` on a longer stream) simply ignores
the surplus bytes, so the decode succeeds. -/
theorem c1_counterexample :
    (dsGoodBuf ++ [0]).length = 177 ∧
    exceptIsOk (dailySummaryLoadFromWlk (dsGoodBuf ++ [0])) = true := by
  constructor
  · decide
  · decide


/-- Masking with 0xFF is reduction modulo 256. -/
theorem and_255_eq_mod (x : Nat) : x &&& 255 = x % 256 := by
  have h := Nat.and_pow_two_sub_one_eq_mod x 8
  norm_num at h
  exact h

/-- `(c << 8) & 0xFF00` keeps the low byte of `c`, shifted into the high
byte. -/
theorem shiftLeft8_and_ff00 (c : Nat) : (c <<< 8) &&& 65280 = c % 256 * 256 := by
  apply Nat.eq_of_testBit_eq
  intro i
  rw [show (65280 : Nat) = (2 ^ 8 - 1) <<< 8 from rfl,
      show c % 256 * 256 = (c % 2 ^ 8) <<< 8 by rw [Nat.shiftLeft_eq]; norm_num]
  simp only [Nat.testBit_and, Nat.testBit_shiftLeft, Nat.testBit_mod_two_pow,
    Nat.testBit_two_pow_sub_one]
  by_cases h8 : 8 ≤ i
  · simp only [h8, decide_True, Bool.true_and]
    rw [Bool.and_comm]
  · simp [h8]

/-- Low bytes of an xor are the xor of the low bytes. -/
theorem xor_mod_256 (a b : Nat) : (a ^^^ b) % 256 = (a % 256) ^^^ (b % 256) := by
  rw [← and_255_eq_mod, ← and_255_eq_mod a, ← and_255_eq_mod b, Nat.and_xor_distrib_right]

theorem nat_xor_left_cancel {a x y : Nat} (h : a ^^^ x = a ^^^ y) : x = y := by
  have h2 := congrArg (fun z => a ^^^ z) h
  simpa [← Nat.xor_assoc, Nat.xor_self] using h2

theorem nat_xor_right_cancel {a x y : Nat} (h : x ^^^ a = y ^^^ a) : x = y := by
  have h2 := congrArg (fun z => z ^^^ a) h
  simpa [Nat.xor_assoc, Nat.xor_self] using h2

/-- Every CRC table entry is a 16-bit value. -/
theorem crcTable_getD_lt (i : Nat) : WEATHERLINK_CRC_TABLE.getD i 0 < 65536 := by
  rw [List.getD_eq_getElem?_getD]
  cases h : WEATHERLINK_CRC_TABLE[i]? with
  | none => simp
  | some x =>
    have hx : x ∈ WEATHERLINK_CRC_TABLE := List.getElem?_mem h
    have hall : ∀ v ∈ WEATHERLINK_CRC_TABLE, v < 65536 := by decide
    simpa using hall x hx

/-- The low bytes of the 256 CRC table entries are pairwise distinct.  This
is the table property that makes a single-byte corruption visible in the
final CRC. -/
theorem crcTable_low_nodup : (WEATHERLINK_CRC_TABLE.map (· % 256)).Nodup := by decide

/-- Distinct table indices below 256 give entries with distinct low bytes. -/
theorem crcTable_low_inj {i j : Nat} (hi : i < 256) (hj : j < 256)
    (h : WEATHERLINK_CRC_TABLE.getD i 0 % 256 = WEATHERLINK_CRC_TABLE.getD j 0 % 256) :
    i = j := by
  have hlen : WEATHERLINK_CRC_TABLE.length = 256 := by decide
  have hi1 : i < WEATHERLINK_CRC_TABLE.length := by omega
  have hj1 : j < WEATHERLINK_CRC_TABLE.length := by omega
  have hgd : ∀ (k : Nat) (hk : k < WEATHERLINK_CRC_TABLE.length),
      WEATHERLINK_CRC_TABLE.getD k 0 = WEATHERLINK_CRC_TABLE.get ⟨k, hk⟩ := by
    intro k hk
    rw [List.getD_eq_getElem?_getD, List.getElem?_eq_getElem hk]
    rfl
  have hi2 : i < (WEATHERLINK_CRC_TABLE.map (· % 256)).length := by
    rw [List.length_map]
    omega
  have hj2 : j < (WEATHERLINK_CRC_TABLE.map (· % 256)).length := by
    rw [List.length_map]
    omega
  have hgi : (WEATHERLINK_CRC_TABLE.map (· % 256)).get ⟨i, hi2⟩
      = (WEATHERLINK_CRC_TABLE.map (· % 256)).get ⟨j, hj2⟩ := by
    rw [List.get_map, List.get_map]
    rw [hgd i hi1, hgd j hj1] at h
    exact h
  have hfin := (crcTable_low_nodup.get_inj_iff).mp hgi
  simpa using hfin

/-- Arithmetic form of one CRC folding step. -/
theorem crcStep_eq (c b : Nat) :
    crcStep c b =
      WEATHERLINK_CRC_TABLE.getD ((c / 256 % 256) ^^^ b) 0 ^^^ (c % 256 * 256) := by
  unfold crcStep
  rw [and_255_eq_mod, shiftLeft8_and_ff00, Nat.shiftRight_eq_div_pow]

/-- The CRC state stays a 16-bit value. -/
theorem crcStep_lt (c b : Nat) : crcStep c b < 65536 := by
  rw [crcStep_eq]
  have h1 := crcTable_getD_lt ((c / 256 % 256) ^^^ b)
  have h2 : c % 256 * 256 < 65536 := by
    have := Nat.mod_lt c (show 0 < 256 by norm_num)
    omega
  have h16 : (65536 : Nat) = 2 ^ 16 := by norm_num
  rw [h16] at h1 h2 ⊢
  exact Nat.xor_lt_two_pow h1 h2

/-- The table index formed from the state's high byte and an input byte is a
valid table index. -/
theorem crcIdx_lt (c b : Nat) (hb : b < 256) : (c / 256 % 256) ^^^ b < 256 := by
  have h1 : c / 256 % 256 < 256 := Nat.mod_lt _ (by norm_num)
  have h8 : (256 : Nat) = 2 ^ 8 := by norm_num
  rw [h8] at h1 hb ⊢
  exact Nat.xor_lt_two_pow h1 hb

/-- The low byte of the CRC step is the low byte of the table entry alone. -/
theorem crcStep_mod_256 (c b : Nat) :
    crcStep c b % 256 = WEATHERLINK_CRC_TABLE.getD ((c / 256 % 256) ^^^ b) 0 % 256 := by
  rw [crcStep_eq, xor_mod_256, Nat.mul_mod_left]
  simp

/-- For a fixed input byte the CRC step is injective in the 16-bit state. -/
theorem crcStep_inj_state {b s1 s2 : Nat} (hb : b < 256)
    (h1 : s1 < 65536) (h2 : s2 < 65536) (he : crcStep s1 b = crcStep s2 b) : s1 = s2 := by
  have hm := congrArg (· % 256) he
  simp only at hm
  rw [crcStep_mod_256, crcStep_mod_256] at hm
  have hidx : (s1 / 256 % 256) ^^^ b = (s2 / 256 % 256) ^^^ b :=
    crcTable_low_inj (crcIdx_lt s1 b hb) (crcIdx_lt s2 b hb) hm
  have hhi : s1 / 256 % 256 = s2 / 256 % 256 := nat_xor_right_cancel hidx
  rw [crcStep_eq, crcStep_eq, hidx] at he
  have hL : s1 % 256 * 256 = s2 % 256 * 256 := nat_xor_left_cancel he
  have hlo : s1 % 256 = s2 % 256 := Nat.eq_of_mul_eq_mul_right (by norm_num) hL
  have hdiv1 : s1 / 256 < 256 := by omega
  have hdiv2 : s2 / 256 < 256 := by omega
  rw [Nat.mod_eq_of_lt hdiv1, Nat.mod_eq_of_lt hdiv2] at hhi
  omega

/-- Two distinct input bytes fold the same state to distinct CRC values. -/
theorem crcStep_ne_byte {s b1 b2 : Nat} (hb1 : b1 < 256) (hb2 : b2 < 256) (hne : b1 ≠ b2) :
    crcStep s b1 ≠ crcStep s b2 := by
  intro he
  have hm := congrArg (· % 256) he
  simp only at hm
  rw [crcStep_mod_256, crcStep_mod_256] at hm
  have hidx := crcTable_low_inj (crcIdx_lt s b1 hb1) (crcIdx_lt s b2 hb2) hm
  exact hne (nat_xor_left_cancel hidx)

/-- Folding any byte list preserves the 16-bit state bound. -/
theorem crcFold_lt (l : List Nat) : ∀ s : Nat, s < 65536 → l.foldl crcStep s < 65536 := by
  induction l with
  | nil =>
    intro s hs
    simpa using hs
  | cons b tl ih =>
    intro s hs
    simpa using ih (crcStep s b) (crcStep_lt s b)

/-- Folding a byte list over distinct 16-bit states gives distinct results. -/
theorem crcFold_inj (l : List Nat) : ∀ s1 s2 : Nat, (∀ b ∈ l, b < 256) →
    s1 < 65536 → s2 < 65536 → l.foldl crcStep s1 = l.foldl crcStep s2 → s1 = s2 := by
  induction l with
  | nil =>
    intro s1 s2 _ _ _ h
    simpa using h
  | cons b tl ih =>
    intro s1 s2 hb h1 h2 h
    simp only [List.foldl_cons] at h
    have hrest := ih (crcStep s1 b) (crcStep s2 b)
      (fun v hv => hb v (List.mem_cons_of_mem b hv)) (crcStep_lt s1 b) (crcStep_lt s2 b) h
    exact crcStep_inj_state (hb b (List.mem_cons_self b tl)) h1 h2 hrest

/-- C7: if the table-driven CRC of a byte sequence evaluates to 0, replacing
any single byte by any different byte value makes the CRC of the modified
sequence nonzero. -/
theorem c7_crc_single_byte_change (pre post : List Nat) (x y : Nat)
    (hbytes : ∀ b ∈ pre ++ x :: post, b < 256) (hy : y < 256) (hne : y ≠ x)
    (hzero : calculate_weatherlink_crc (pre ++ x :: post) = 0) :
    calculate_weatherlink_crc (pre ++ y :: post) ≠ 0 := by
  intro hzero2
  have hx : x < 256 := hbytes x (by simp)
  have hpost : ∀ b ∈ post, b < 256 := fun b hb => hbytes b (by simp [hb])
  unfold calculate_weatherlink_crc at hzero hzero2
  rw [List.foldl_append] at hzero hzero2
  simp only [List.foldl_cons] at hzero hzero2
  have hslt : pre.foldl crcStep 0 < 65536 := crcFold_lt pre 0 (by norm_num)
  have heq : post.foldl crcStep (crcStep (pre.foldl crcStep 0) x)
      = post.foldl crcStep (crcStep (pre.foldl crcStep 0) y) := by
    rw [hzero, hzero2]
  have hstep := crcFold_inj post (crcStep (pre.foldl crcStep 0) x)
    (crcStep (pre.foldl crcStep 0) y) hpost
    (crcStep_lt (pre.foldl crcStep 0) x) (crcStep_lt (pre.foldl crcStep 0) y) heq
  exact crcStep_ne_byte hx hy (fun hc => hne hc.symm) hstep

/-- Witness for c7_crc_single_byte_change: the one-byte sequence [0] has
CRC 0, and changing its byte to 1 makes the CRC nonzero. -/
theorem c7_witness : calculate_weatherlink_crc [1] ≠ 0 :=
  c7_crc_single_byte_change [] [] 0 1 (by decide) (by decide) (by decide) (by decide)

end WLK
